import Mathlib

/-!
# Liteon ToF camera driver: format negotiation and lifecycle

Shallow embedding of `drivers/media/platform/mxc/capture/liteon_tof.c`.

* C `int` values are `Int`; `u32` values are `Nat` below `2 ^ 32`, and every
  conversion between the two is written out (`to_u32`, `to_int`).
* The process-wide variables `liteon_valid_res` and `liteon_res_max` are the
  fields of `Globals`.  A pointer to a resolution table is the table itself
  (`none` is `NULL`); reading `p[i]` outside the table is undefined behaviour in
  C and yields `none` here.
* Calls into the GPIO, clock and media frameworks are recorded, in order, in a
  list of `HwCall`; their results are the fields of `ProbeEnv`.
-/

namespace LiteonTof

/-! ## Machine integers -/

/-- Conversion of a C `int` to `u32` (reduction modulo `2 ^ 32`). -/
def to_u32 (x : Int) : Nat := (x % 4294967296).toNat

/-- Conversion of a `u32` to a C `int` (two's complement). -/
def to_int (x : Nat) : Int :=
  if x % 4294967296 < 2147483648 then ((x % 4294967296 : Nat) : Int)
  else ((x % 4294967296 : Nat) : Int) - 4294967296

/-! ## Constants of the kernel headers -/

/-- Modelled from the spec: the errno `EINVAL` (`InvalidArgument`) of
`include/uapi/asm-generic/errno-base.h`, a header that is not under `src/`. -/
def EINVAL : Int := 22

/-- Modelled from the spec: the errno `ENODEV` (`NoMatchingVariant`) of
`include/uapi/asm-generic/errno-base.h`, a header that is not under `src/`. -/
def ENODEV : Int := 19

/-- Modelled from the spec: the errno `EPROBE_DEFER` (`DeferredRetry`) of
`include/linux/errno.h`, a header that is not under `src/`. -/
def EPROBE_DEFER : Int := 517

/-- Modelled from the spec: the single supported pixel code (12-bit
Bayer-BGGR) of `include/uapi/linux/media-bus-format.h`, not under `src/`. -/
def MEDIA_BUS_FMT_SBGGR12_1X12 : Nat := 0x3008

/-- Modelled from the spec: the raw colorspace of
`include/uapi/linux/videodev2.h`, not under `src/`. -/
def V4L2_COLORSPACE_RAW : Nat := 11

/-- Modelled from the spec: the field order "none" of
`include/uapi/linux/videodev2.h`, not under `src/`. -/
def V4L2_FIELD_NONE : Nat := 1

/-- Modelled from the spec: the single-plane video-capture buffer type of
`include/uapi/linux/videodev2.h`, not under `src/`. -/
def V4L2_BUF_TYPE_VIDEO_CAPTURE : Nat := 1

/-- Modelled from the spec: the multi-plane video-capture buffer type of
`include/uapi/linux/videodev2.h`, not under `src/`. -/
def V4L2_BUF_TYPE_VIDEO_CAPTURE_MPLANE : Nat := 9

/-- Modelled from the spec: the number of GPIO lines that bounds
`gpio_is_valid` in `include/asm-generic/gpio.h`, not under `src/`. -/
def ARCH_NR_GPIOS : Int := 512

/-- Modelled from the spec: `gpio_is_valid` of `include/asm-generic/gpio.h`
(not under `src/`): the number names a line that may be present. -/
def gpio_is_valid (number : Int) : Bool :=
  decide (0 ≤ number) && decide (number < ARCH_NR_GPIOS)

/-! ## Data model -/

/-- One supported resolution: `struct liteon_tof_res`. -/
structure liteon_tof_res where
  width : Int
  height : Int
  deriving DecidableEq, Repr

/-- The size in bytes of `struct liteon_tof_res` (two `int` members). -/
def sizeof_liteon_tof_res : Nat := 8

/-- The resolution table of the `lton,liteon_tof` variant. -/
def liteon_tof_valid_res : List liteon_tof_res :=
  [⟨224, 172⟩, ⟨224, 173⟩, ⟨224, 860⟩, ⟨224, 865⟩, ⟨224, 1548⟩, ⟨224, 1557⟩]

/-- The resolution table of the `lton,liteon_tof_vga` variant. -/
def liteon_tof_vga_valid_res : List liteon_tof_res :=
  [⟨640, 240⟩, ⟨640, 241⟩, ⟨640, 1200⟩, ⟨640, 1205⟩, ⟨640, 2160⟩, ⟨640, 2169⟩]

/-- The process-wide variables of the driver: the pointer `liteon_valid_res`
(`none` is `NULL`, `some t` points at the first entry of table `t`) and the
count `liteon_res_max`. -/
structure Globals where
  liteon_valid_res : Option (List liteon_tof_res)
  liteon_res_max : Int
  deriving DecidableEq, Repr

/-- The values the C initialisers give: `liteon_valid_res = NULL`,
`liteon_res_max = 0`. -/
def Globals.initial : Globals := ⟨none, 0⟩

/-- The read `p[i]` through a table pointer; `none` when the pointer is `NULL`
or the position lies outside the table. -/
def table_read (p : Option (List liteon_tof_res)) (i : Int) : Option liteon_tof_res :=
  match p with
  | none => none
  | some t => if 0 ≤ i then t[i.toNat]? else none

/-- The members of `struct v4l2_fract`. -/
structure v4l2_fract where
  numerator : Nat
  denominator : Nat
  deriving DecidableEq, Repr

/-- The members of `struct v4l2_captureparm` (all `u32`). -/
structure v4l2_captureparm where
  capability : Nat
  capturemode : Nat
  timeperframe : v4l2_fract
  extendedmode : Nat
  readbuffers : Nat
  reserved : List Nat
  deriving DecidableEq, Repr

/-- A `struct v4l2_captureparm` whose bytes are all zero. -/
def v4l2_captureparm.zero : v4l2_captureparm :=
  ⟨0, 0, ⟨0, 0⟩, 0, 0, [0, 0, 0, 0]⟩

/-- The members of `struct v4l2_streamparm`, its union seen through
`parm.capture`. -/
structure v4l2_streamparm where
  type : Nat
  capture : v4l2_captureparm
  deriving DecidableEq, Repr

/-- The members of `struct v4l2_mbus_framefmt` (all `u32`; the trailing members
the driver never touches are kept in `rest`). -/
structure v4l2_mbus_framefmt where
  width : Nat
  height : Nat
  code : Nat
  field : Nat
  colorspace : Nat
  rest : List Nat
  deriving DecidableEq, Repr

/-- The members of `struct v4l2_subdev_format`. -/
structure v4l2_subdev_format where
  which : Nat
  pad : Nat
  format : v4l2_mbus_framefmt
  deriving DecidableEq, Repr

/-- The members of `struct v4l2_subdev_mbus_code_enum`. -/
structure v4l2_subdev_mbus_code_enum where
  pad : Nat
  index : Nat
  code : Nat
  which : Nat
  deriving DecidableEq, Repr

/-- The members of `struct v4l2_subdev_frame_size_enum`. -/
structure v4l2_subdev_frame_size_enum where
  index : Nat
  pad : Nat
  code : Nat
  min_width : Nat
  max_width : Nat
  min_height : Nat
  max_height : Nat
  which : Nat
  deriving DecidableEq, Repr

/-- The members of `struct liteon_tof` the driver reads or writes. -/
structure liteon_tof where
  cap_parm : v4l2_captureparm
  clk : Option Nat
  pwn_gpio : Int
  rst_gpio : Int
  deriving DecidableEq, Repr

/-- The device structure as `devm_kzalloc` returns it: all bytes zero. -/
def liteon_tof.zero : liteon_tof := ⟨v4l2_captureparm.zero, none, 0, 0⟩

/-- A call into the GPIO, clock, pin-control or media framework. -/
inductive HwCall where
  | pinctrl_get_select_default
  | gpio_request_one (gpio : Int)
  | clk_prepare_enable (clk : Option Nat)
  | gpio_direction_input (gpio : Int)
  | gpio_direction_output (gpio : Int) (value : Int)
  | media_entity_pads_init
  | v4l2_async_register_subdev
  | media_entity_cleanup
  | platform_set_drvdata
  | clk_disable_unprepare (clk : Option Nat)
  | v4l2_async_unregister_subdev
  deriving DecidableEq, Repr

/-- The state a subdevice callback runs in: the process-wide variables, the
device structure, and the framework calls made so far. -/
structure DevState where
  g : Globals
  cam : liteon_tof
  hw : List HwCall
  deriving DecidableEq, Repr

/-! ## The resolution search -/

/-- The loop of `find_resulution`: `ptr` is position `i` of the table, `rest`
the entries from `ptr` on.  The loop stops with `-1` when `ptr` reaches
`liteon_valid_res + liteon_res_max`; reading `ptr` past the last entry is
undefined behaviour (`none`). -/
def find_resulution_loop (res_max width height : Int) :
    List liteon_tof_res → Nat → Option Int
  | [], i => if (i : Int) = res_max then some (-1) else none
  | e :: rest, i =>
    if (i : Int) = res_max then some (-1)
    else if e.width = width ∧ e.height = height then some (res_max - 1 - i)
    else find_resulution_loop res_max width height rest (i + 1)

/-- The function `find_resulution`: the value returned on a match is the
pointer difference `&liteon_valid_res[liteon_res_max - 1] - ptr`. -/
def find_resulution (g : Globals) (width height : Int) : Option Int :=
  find_resulution_loop g.liteon_res_max width height
    (g.liteon_valid_res.getD []) 0

/-! ## Power helpers -/

/-- The function `liteon_tof_disable_power`: a valid power-down line is driven
as output with level 0. -/
def liteon_tof_disable_power (sensor : liteon_tof) (hw : List HwCall) : List HwCall :=
  if gpio_is_valid sensor.pwn_gpio then
    hw ++ [HwCall.gpio_direction_output sensor.pwn_gpio 0]
  else hw

/-- The function `liteon_tof_enable_power`: a valid power-down line is set to
input direction. -/
def liteon_tof_enable_power (sensor : liteon_tof) (hw : List HwCall) : List HwCall :=
  if gpio_is_valid sensor.pwn_gpio then
    hw ++ [HwCall.gpio_direction_input sensor.pwn_gpio]
  else hw

/-! ## Subdevice callbacks -/

/-- The callback `liteon_tof_s_power`. -/
def liteon_tof_s_power (s : DevState) (_on : Int) : Int × DevState := (0, s)

/-- The callback `liteon_tof_g_parm`: returns the result code, the state and
the contents of `*sparm` after the call. -/
def liteon_tof_g_parm (s : DevState) (sparm : v4l2_streamparm) :
    Int × DevState × v4l2_streamparm :=
  if sparm.type = V4L2_BUF_TYPE_VIDEO_CAPTURE ∨
      sparm.type = V4L2_BUF_TYPE_VIDEO_CAPTURE_MPLANE then
    -- memset(sparm, 0, sizeof(*sparm))
    let zeroed : v4l2_streamparm := ⟨0, v4l2_captureparm.zero⟩
    (0, s, { zeroed with
      capture := { zeroed.capture with
        capability := s.cam.cap_parm.capability
        capturemode := s.cam.cap_parm.capturemode } })
  else (-EINVAL, s, sparm)

/-- The callback `liteon_tof_s_parm`.  The comparison with `liteon_res_max` is
made in `u32`; the store of the capture mode follows the range check whatever
its outcome. -/
def liteon_tof_s_parm (s : DevState) (sparm : v4l2_streamparm) : Int × DevState :=
  if sparm.type = V4L2_BUF_TYPE_VIDEO_CAPTURE ∨
      sparm.type = V4L2_BUF_TYPE_VIDEO_CAPTURE_MPLANE then
    let ret : Int :=
      if sparm.capture.capturemode ≥ to_u32 s.g.liteon_res_max then -EINVAL else 0
    (ret, { s with cam := { s.cam with
      cap_parm := { s.cam.cap_parm with
        capturemode := to_u32 (sparm.capture.capturemode : Int) } } })
  else (-EINVAL, s)

/-- The callback `liteon_tof_set_fmt`; `none` when the search reads outside
the table. -/
def liteon_tof_set_fmt (s : DevState) (format : v4l2_subdev_format) :
    Option (Int × DevState) :=
  if format.format.code ≠ MEDIA_BUS_FMT_SBGGR12_1X12 then some (-EINVAL, s)
  else
    match find_resulution s.g (to_int format.format.width) (to_int format.format.height) with
    | none => none
    | some res =>
      if 0 ≤ res then
        some (0, { s with cam := { s.cam with
          cap_parm := { s.cam.cap_parm with capturemode := to_u32 res } } })
      else some (-EINVAL, s)

/-- The callback `liteon_tof_get_fmt`: returns the result code, the state and
the contents of `*format` after the call; `none` when
`liteon_valid_res[capmode]` lies outside the table. -/
def liteon_tof_get_fmt (s : DevState) (format : v4l2_subdev_format) :
    Option (Int × DevState × v4l2_subdev_format) :=
  let capmode : Int := to_int s.cam.cap_parm.capturemode
  if format.pad ≠ 0 then some (-EINVAL, s, format)
  else
    match table_read s.g.liteon_valid_res capmode with
    | none => none
    | some e =>
      some (0, s, { format with
        format := { format.format with
          code := MEDIA_BUS_FMT_SBGGR12_1X12
          colorspace := V4L2_COLORSPACE_RAW
          field := V4L2_FIELD_NONE
          width := to_u32 e.width
          height := to_u32 e.height } })

/-- The callback `liteon_tof_enum_mbus_code`: returns the result code, the
state and the contents of `*code` after the call. -/
def liteon_tof_enum_mbus_code (s : DevState) (code : v4l2_subdev_mbus_code_enum) :
    Int × DevState × v4l2_subdev_mbus_code_enum :=
  if code.pad ≠ 0 ∨ code.index ≠ 0 then (-EINVAL, s, code)
  else (0, s, { code with code := MEDIA_BUS_FMT_SBGGR12_1X12 })

/-- The callback `liteon_tof_enum_framesizes`: returns the result code, the
state and the contents of `*fse` after the call; `none` when
`liteon_valid_res[fse->index]` lies outside the table.  The comparison with
`liteon_res_max` is made in `u32`. -/
def liteon_tof_enum_framesizes (s : DevState) (fse : v4l2_subdev_frame_size_enum) :
    Option (Int × DevState × v4l2_subdev_frame_size_enum) :=
  if fse.index > to_u32 s.g.liteon_res_max then some (-EINVAL, s, fse)
  else
    match table_read s.g.liteon_valid_res (fse.index : Int) with
    | none => none
    | some e =>
      some (0, s, { fse with
        max_width := to_u32 e.width
        min_width := to_u32 e.width
        max_height := to_u32 e.height
        min_height := to_u32 e.height })

/-- The callback `liteon_tof_link_setup`. -/
def liteon_tof_link_setup (s : DevState) (_flags : Nat) : Int × DevState := (0, s)

/-! ## Construction and teardown -/

/-- What the collaborators of `liteon_tof_probe` answer during one call. -/
structure ProbeEnv where
  /-- `devm_kzalloc` returned memory (the driver does not check). -/
  kzalloc_ok : Bool
  /-- `of_find_compatible_node` found a `lton,liteon_tof` node. -/
  dn_tof : Bool
  /-- `of_find_compatible_node` found a `lton,liteon_tof_vga` node. -/
  dn_tof_vga : Bool
  /-- `devm_pinctrl_get_select_default` returned an error pointer. -/
  pinctrl_err : Bool
  /-- The value of `of_get_named_gpio` for `pwn-gpios`. -/
  pwn_gpio : Int
  /-- The value of `devm_gpio_request_one` for the power-down line. -/
  pwn_request : Int
  /-- The value of `of_get_named_gpio` for `rst-gpios`. -/
  rst_gpio : Int
  /-- The value of `devm_gpio_request_one` for the reset line. -/
  rst_request : Int
  /-- `devm_clk_get` returned an error pointer. -/
  clk_err : Bool
  /-- The clock pointer `devm_clk_get` returned when it is not an error. -/
  clk : Option Nat
  /-- The value of `media_entity_pads_init`. -/
  pads_init : Int
  /-- The value of `v4l2_async_register_subdev`. -/
  register_subdev : Int
  deriving DecidableEq, Repr

/-- The end of one call of `liteon_tof_probe`: the value returned (`none` when
the call dereferenced a `NULL` device structure), the process-wide variables,
the driver data set with `platform_set_drvdata`, and the framework calls made. -/
structure ProbeResult where
  ret : Option Int
  g : Globals
  drvdata : Option liteon_tof
  hw : List HwCall
  deriving DecidableEq, Repr

/-- The function `liteon_tof_probe`. -/
def liteon_tof_probe (env : ProbeEnv) (g : Globals) : ProbeResult :=
  let g1 : Globals :=
    if env.dn_tof then { g with liteon_valid_res := some liteon_tof_valid_res } else g
  let g2 : Globals :=
    if env.dn_tof_vga then { g1 with liteon_valid_res := some liteon_tof_vga_valid_res } else g1
  if g2.liteon_valid_res = none then ⟨some (-ENODEV), g2, none, []⟩
  else
    -- sizeof(*liteon_valid_res) / sizeof(liteon_valid_res[0])
    let g3 : Globals :=
      { g2 with liteon_res_max := ((sizeof_liteon_tof_res / sizeof_liteon_tof_res : Nat) : Int) }
    let hw1 : List HwCall := [HwCall.pinctrl_get_select_default]
    if env.kzalloc_ok = false then ⟨none, g3, none, hw1⟩
    else
      let cam1 : liteon_tof := { liteon_tof.zero with pwn_gpio := env.pwn_gpio }
      if cam1.pwn_gpio = -EPROBE_DEFER then ⟨some (-EPROBE_DEFER), g3, none, hw1⟩
      else
        let hw2 : List HwCall :=
          hw1 ++ (if gpio_is_valid cam1.pwn_gpio = true then
            [HwCall.gpio_request_one cam1.pwn_gpio] else [])
        if gpio_is_valid cam1.pwn_gpio = true ∧ env.pwn_request ≠ 0 then
          ⟨some env.pwn_request, g3, none, hw2⟩
        else
          let cam2 : liteon_tof := { cam1 with rst_gpio := env.rst_gpio }
          if cam2.rst_gpio = -EPROBE_DEFER then ⟨some (-EPROBE_DEFER), g3, none, hw2⟩
          else
            let hw3 : List HwCall :=
              hw2 ++ (if gpio_is_valid cam2.rst_gpio = true then
                [HwCall.gpio_request_one cam2.rst_gpio] else [])
            if gpio_is_valid cam2.rst_gpio = true ∧ env.rst_request ≠ 0 then
              ⟨some env.rst_request, g3, none, hw3⟩
            else
              let cam3 : liteon_tof :=
                { cam2 with clk := if env.clk_err = true then none else env.clk }
              let hw4 : List HwCall :=
                hw3 ++ (if env.clk_err = true then [] else [HwCall.clk_prepare_enable env.clk])
              let cam4 : liteon_tof :=
                { cam3 with cap_parm := { cam3.cap_parm with capturemode := 0 } }
              let hw5 : List HwCall := liteon_tof_enable_power cam4 hw4
              let hw6 : List HwCall :=
                hw5 ++ (if gpio_is_valid cam4.rst_gpio = true then
                  [HwCall.gpio_direction_output cam4.rst_gpio 0] else [])
              let hw7 : List HwCall := hw6 ++ [HwCall.media_entity_pads_init]
              if env.pads_init ≠ 0 then ⟨some env.pads_init, g3, none, hw7⟩
              else
                let hw8 : List HwCall :=
                  hw7 ++ [HwCall.v4l2_async_register_subdev] ++
                    (if env.register_subdev ≠ 0 then [HwCall.media_entity_cleanup] else [])
                ⟨some 0, g3, some cam4, hw8 ++ [HwCall.platform_set_drvdata]⟩

/-- The function `liteon_tof_remove`, run on the driver data of the device. -/
def liteon_tof_remove (s : DevState) : Int × DevState :=
  let hw1 : List HwCall := liteon_tof_disable_power s.cam s.hw
  let hw2 : List HwCall := hw1 ++ [HwCall.clk_disable_unprepare s.cam.clk]
  (0, { s with hw := hw2 ++ [HwCall.v4l2_async_unregister_subdev] })

/-! ## Runs of the driver -/

/-- The process-wide variables a probe can start from: the C initial values,
or what an earlier call of `liteon_tof_probe` left. -/
inductive GlobalsReachable : Globals → Prop where
  | initial : GlobalsReachable Globals.initial
  | probe (env : ProbeEnv) (g : Globals) :
      GlobalsReachable g → GlobalsReachable (liteon_tof_probe env g).g

/-- One call of the public operation surface, with its argument. -/
inductive Op where
  | s_power (power_on : Int)
  | enum_mbus_code (code : v4l2_subdev_mbus_code_enum)
  | enum_frame_size (fse : v4l2_subdev_frame_size_enum)
  | get_fmt (format : v4l2_subdev_format)
  | set_fmt (format : v4l2_subdev_format)
  | g_parm (sparm : v4l2_streamparm)
  | s_parm (sparm : v4l2_streamparm)
  deriving DecidableEq, Repr

/-- The result code and the state after one operation; `none` when the
operation reads outside the resolution table. -/
def Op.step (s : DevState) : Op → Option (Int × DevState)
  | Op.s_power power_on => some (liteon_tof_s_power s power_on)
  | Op.enum_mbus_code code =>
    some ((liteon_tof_enum_mbus_code s code).1, (liteon_tof_enum_mbus_code s code).2.1)
  | Op.enum_frame_size fse => (liteon_tof_enum_framesizes s fse).map fun r => (r.1, r.2.1)
  | Op.get_fmt format => (liteon_tof_get_fmt s format).map fun r => (r.1, r.2.1)
  | Op.set_fmt format => liteon_tof_set_fmt s format
  | Op.g_parm sparm => some ((liteon_tof_g_parm s sparm).1, (liteon_tof_g_parm s sparm).2.1)
  | Op.s_parm sparm => some (liteon_tof_s_parm s sparm)

/-- The state after a finite sequence of operations, whatever their result
codes. -/
def run (s : DevState) : List Op → Option DevState
  | [] => some s
  | op :: ops =>
    match op.step s with
    | none => none
    | some r => run r.2 ops

/-- The state a device is in when `liteon_tof_probe` has returned 0. -/
def probed (env : ProbeEnv) (g : Globals) : Option DevState :=
  let r := liteon_tof_probe env g
  if r.ret = some 0 then r.drvdata.map fun cam => ⟨r.g, cam, r.hw⟩ else none

/-! ## Concrete inputs used to evaluate the driver -/

/-- A probe on a board with a `lton,liteon_tof` node only and none of the
optional resources (no pin configuration, GPIO lookups answer `-ENOENT`, no
clock); allocation, pad initialisation and registration succeed. -/
def env_tof : ProbeEnv :=
  { kzalloc_ok := true, dn_tof := true, dn_tof_vga := false, pinctrl_err := true,
    pwn_gpio := -2, pwn_request := 0, rst_gpio := -2, rst_request := 0,
    clk_err := true, clk := none, pads_init := 0, register_subdev := 0 }

/-- The same board with a `lton,liteon_tof_vga` node only. -/
def env_tof_vga : ProbeEnv := { env_tof with dn_tof := false, dn_tof_vga := true }

/-- The same board with neither node. -/
def env_no_variant : ProbeEnv := { env_tof with dn_tof := false }

/-- The state of the device that `liteon_tof_probe` constructs on `env_tof`
from the initial process state. -/
def dev_tof : DevState :=
  { g := ⟨some liteon_tof_valid_res, 1⟩
    cam := { liteon_tof.zero with pwn_gpio := -2, rst_gpio := -2 }
    hw := [HwCall.pinctrl_get_select_default, HwCall.media_entity_pads_init,
      HwCall.v4l2_async_register_subdev, HwCall.platform_set_drvdata] }

/-- A `set_fmt`/`get_fmt` argument for pad 0 with the supported pixel code and
the given size. -/
def format_of (width height : Nat) : v4l2_subdev_format :=
  ⟨0, 0, ⟨width, height, MEDIA_BUS_FMT_SBGGR12_1X12, 0, 0, []⟩⟩

/-- A `g_parm`/`s_parm` argument of the given buffer type and capture mode. -/
def streamparm_of (type capturemode : Nat) : v4l2_streamparm :=
  ⟨type, { v4l2_captureparm.zero with capturemode := capturemode }⟩

/-- A frame-size enumeration argument for the given index. -/
def fse_of (index : Nat) : v4l2_subdev_frame_size_enum := ⟨index, 0, 0, 0, 0, 0, 0, 0⟩

/-- The board `env_tof` on which `devm_kzalloc` returns `NULL` and the lookup
of `pwn-gpios` answers `-EPROBE_DEFER`. -/
def env_defer_alloc_fails : ProbeEnv :=
  { env_tof with kzalloc_ok := false, pwn_gpio := -517 }

/-- The board `env_tof` on which the lookup of `rst-gpios` answers
`-EPROBE_DEFER` after the power-down line 4 was requested. -/
def env_defer : ProbeEnv := { env_tof with pwn_gpio := 4, rst_gpio := -517 }

/-- A board with a `lton,liteon_tof` node, power-down line 4, reset line 5 and
clock 7, on which every step succeeds. -/
def env_full : ProbeEnv :=
  { kzalloc_ok := true, dn_tof := true, dn_tof_vga := false, pinctrl_err := false,
    pwn_gpio := 4, pwn_request := 0, rst_gpio := 5, rst_request := 0,
    clk_err := false, clk := some 7, pads_init := 0, register_subdev := 0 }

/-- The state of the device that `liteon_tof_probe` constructs on `env_full`
from the initial process state. -/
def dev_full : DevState :=
  { g := ⟨some liteon_tof_valid_res, 1⟩
    cam := { liteon_tof.zero with clk := some 7, pwn_gpio := 4, rst_gpio := 5 }
    hw := [HwCall.pinctrl_get_select_default, HwCall.gpio_request_one 4,
      HwCall.gpio_request_one 5, HwCall.clk_prepare_enable (some 7),
      HwCall.gpio_direction_input 4, HwCall.gpio_direction_output 5 0,
      HwCall.media_entity_pads_init, HwCall.v4l2_async_register_subdev,
      HwCall.platform_set_drvdata] }

/-- The board `env_tof` on which `v4l2_async_register_subdev` answers
`-ENOMEM`. -/
def env_register_fails : ProbeEnv := { env_tof with register_subdev := -12 }

/-! ## Lines and clock -/

/-- Modelled from the spec: the state of one line of the GPIO provider (§6:
`request`, `set_direction`, `set_level`), which is not under `src/`. -/
inductive LineState where
  | unrequested
  | input
  | output (level : Int)
  deriving DecidableEq, Repr

/-- Modelled from the spec: what one framework call does to the line `gpio`: a
request with `GPIOF_IN` and `gpio_direction_input` make it an input,
`gpio_direction_output` drives it at the given level, every other call and
every call on another line leaves it as it is. -/
def HwCall.line_effect (gpio : Int) (st : LineState) : HwCall → LineState
  | HwCall.gpio_request_one n => if n = gpio then LineState.input else st
  | HwCall.gpio_direction_input n => if n = gpio then LineState.input else st
  | HwCall.gpio_direction_output n level => if n = gpio then LineState.output level else st
  | _ => st

/-- Modelled from the spec: the state of the line `gpio` after the framework
calls `hw`, made in that order on a line nobody had requested. -/
def line_state (hw : List HwCall) (gpio : Int) : LineState :=
  hw.foldl (fun st call => call.line_effect gpio st) LineState.unrequested

/-- The number of `clk_prepare_enable` calls on the clock `clk`. -/
def clk_enables (hw : List HwCall) (clk : Nat) : Nat :=
  hw.count (HwCall.clk_prepare_enable (some clk))

/-- The number of `clk_disable_unprepare` calls on the clock `clk`. -/
def clk_disables (hw : List HwCall) (clk : Nat) : Nat :=
  hw.count (HwCall.clk_disable_unprepare (some clk))

/-- Modelled from the spec: the power state `Active`: a present power-enable
line is an input, a present reset line is driven as output with level 0, and a
present clock has one more enable than disables. -/
def power_active (s : DevState) : Prop :=
  (gpio_is_valid s.cam.pwn_gpio = true → line_state s.hw s.cam.pwn_gpio = LineState.input) ∧
  (gpio_is_valid s.cam.rst_gpio = true →
    line_state s.hw s.cam.rst_gpio = LineState.output 0) ∧
  (∀ clk, s.cam.clk = some clk → clk_enables s.hw clk = clk_disables s.hw clk + 1)

/-- Modelled from the spec: the power state `Unpowered`: a present
power-enable line is driven as output with level 0 and every enable of a
present clock is matched by a disable. -/
def power_unpowered (s : DevState) : Prop :=
  (gpio_is_valid s.cam.pwn_gpio = true →
    line_state s.hw s.cam.pwn_gpio = LineState.output 0) ∧
  (∀ clk, s.cam.clk = some clk → clk_enables s.hw clk = clk_disables s.hw clk)

/-- Modelled from the spec: the GPIO provider hands a line to one owner
("exclusively owned", §3 and §5): the request of the reset line is refused
when its number is that of the power-down line already requested. -/
def ProbeEnv.gpio_exclusive (env : ProbeEnv) : Prop :=
  gpio_is_valid env.pwn_gpio = true → env.rst_gpio = env.pwn_gpio → env.rst_request ≠ 0

/-- The same process-wide variables and device structure, the capture mode
apart, and the same framework calls. -/
def same_but_capturemode (s s' : DevState) : Prop :=
  s'.g = s.g ∧ s'.hw = s.hw ∧ s'.cam.clk = s.cam.clk ∧ s'.cam.pwn_gpio = s.cam.pwn_gpio ∧
  s'.cam.rst_gpio = s.cam.rst_gpio ∧
  s'.cam.cap_parm = { s.cam.cap_parm with capturemode := s'.cam.cap_parm.capturemode }

/-! ## Facts about construction -/

/-- The table pointer after a probe: the VGA table when that node was found,
else the standard table when that node was found, else the pointer the probe
started with. -/
theorem probe_valid_res (env : ProbeEnv) (g : Globals) :
    (liteon_tof_probe env g).g.liteon_valid_res =
      if env.dn_tof_vga then some liteon_tof_vga_valid_res
      else if env.dn_tof then some liteon_tof_valid_res
      else g.liteon_valid_res := by
  unfold liteon_tof_probe
  lift_lets
  intro g1 g2 g3 hw1 z cam1 hw2 cam2 hw3 cam3 hw4 c3 cam4 hw5 hw6 hw7 hw8
  have h2 : g2.liteon_valid_res = if env.dn_tof_vga then some liteon_tof_vga_valid_res
      else if env.dn_tof then some liteon_tof_valid_res
      else g.liteon_valid_res := by
    simp only [g2, g1]
    split_ifs <;> rfl
  rw [← h2]
  split_ifs <;> rfl

/-- A probe that returned 0 left `liteon_res_max = 1`, a table pointer that is
not `NULL`, and driver data whose capture mode is 0. -/
theorem probe_ret_zero (env : ProbeEnv) (g : Globals)
    (h : (liteon_tof_probe env g).ret = some 0) :
    (liteon_tof_probe env g).g.liteon_res_max = 1 ∧
    (liteon_tof_probe env g).g.liteon_valid_res ≠ none ∧
    ∃ cam, (liteon_tof_probe env g).drvdata = some cam ∧ cam.cap_parm.capturemode = 0 := by
  revert h
  unfold liteon_tof_probe
  lift_lets
  intro g1 g2 g3 hw1 z cam1 hw2 cam2 hw3 cam3 hw4 c3 cam4 hw5 hw6 hw7 hw8 h
  split_ifs at h ⊢ with h1 h2 h3 h4 h5 h6 h7
  · exact absurd h (by simp [ENODEV])
  · exact absurd h (by simp [EPROBE_DEFER])
  · exact absurd (Option.some.inj h) h4.2
  · exact absurd h (by simp [EPROBE_DEFER])
  · exact absurd (Option.some.inj h) h6.2
  · exact absurd (Option.some.inj h) h7
  · exact ⟨rfl, h1, cam4, rfl, rfl⟩

/-- The table pointer of the process is `NULL` or one of the two built-in
tables. -/
theorem globals_reachable_valid_res {g : Globals} (h : GlobalsReachable g) :
    g.liteon_valid_res = none ∨ g.liteon_valid_res = some liteon_tof_valid_res ∨
      g.liteon_valid_res = some liteon_tof_vga_valid_res := by
  induction h with
  | initial => exact Or.inl rfl
  | probe env g _ ih =>
    rw [probe_valid_res]
    split_ifs
    · exact Or.inr (Or.inr rfl)
    · exact Or.inr (Or.inl rfl)
    · exact ih

/-- The state of a successfully probed device: one of the built-in tables is
selected, `liteon_res_max` is 1 and the capture mode is 0. -/
theorem probed_state {env : ProbeEnv} {g : Globals} {s : DevState}
    (hg : GlobalsReachable g) (hp : probed env g = some s) :
    (s.g.liteon_valid_res = some liteon_tof_valid_res ∨
      s.g.liteon_valid_res = some liteon_tof_vga_valid_res) ∧
    s.g.liteon_res_max = 1 ∧ s.cam.cap_parm.capturemode = 0 := by
  unfold probed at hp
  simp only at hp
  split_ifs at hp with hret
  obtain ⟨hmax, hne, cam, hcam, hmode⟩ := probe_ret_zero env g hret
  rw [hcam] at hp
  simp only [Option.map_some', Option.some.injEq] at hp
  subst hp
  refine ⟨?_, hmax, hmode⟩
  rcases globals_reachable_valid_res (GlobalsReachable.probe env g hg) with h | h | h
  · exact absurd h hne
  · exact Or.inl h
  · exact Or.inr h

/-- A probe that finds a variant leaves a table pointer that is not `NULL`. -/
theorem probe_selected_of_variant (env : ProbeEnv) (g : Globals)
    (hv : env.dn_tof = true ∨ env.dn_tof_vga = true) :
    (liteon_tof_probe env g).g.liteon_valid_res ≠ none := by
  rw [probe_valid_res]
  cases hvga : env.dn_tof_vga
  · rcases hv with h | h
    · simp [h]
    · rw [hvga] at h; exact absurd h (by decide)
  · simp

/-- The device structure and the framework calls of a probe that passes every
exit before `return 0`. -/
theorem probe_success (env : ProbeEnv) (g : Globals)
    (hsel : (liteon_tof_probe env g).g.liteon_valid_res ≠ none)
    (halloc : env.kzalloc_ok = true)
    (hpwnd : env.pwn_gpio ≠ -EPROBE_DEFER)
    (hpwn : ¬ (gpio_is_valid env.pwn_gpio = true ∧ env.pwn_request ≠ 0))
    (hrstd : env.rst_gpio ≠ -EPROBE_DEFER)
    (hrst : ¬ (gpio_is_valid env.rst_gpio = true ∧ env.rst_request ≠ 0))
    (hpads : env.pads_init = 0) :
    (liteon_tof_probe env g).ret = some 0 ∧
    (liteon_tof_probe env g).drvdata =
      some ⟨v4l2_captureparm.zero, if env.clk_err = true then none else env.clk,
        env.pwn_gpio, env.rst_gpio⟩ ∧
    (liteon_tof_probe env g).hw =
      [HwCall.pinctrl_get_select_default] ++
      (if gpio_is_valid env.pwn_gpio = true then [HwCall.gpio_request_one env.pwn_gpio]
        else []) ++
      (if gpio_is_valid env.rst_gpio = true then [HwCall.gpio_request_one env.rst_gpio]
        else []) ++
      (if env.clk_err = true then [] else [HwCall.clk_prepare_enable env.clk]) ++
      (if gpio_is_valid env.pwn_gpio = true then [HwCall.gpio_direction_input env.pwn_gpio]
        else []) ++
      (if gpio_is_valid env.rst_gpio = true then [HwCall.gpio_direction_output env.rst_gpio 0]
        else []) ++
      [HwCall.media_entity_pads_init, HwCall.v4l2_async_register_subdev] ++
      (if env.register_subdev ≠ 0 then [HwCall.media_entity_cleanup] else []) ++
      [HwCall.platform_set_drvdata] := by
  revert hsel
  unfold liteon_tof_probe
  lift_lets
  intro g1 g2 g3 hw1 z cam1 hw2 cam2 hw3 cam3 hw4 c3 cam4 hw5 hw6 hw7 hw8 hsel
  have h1 : ¬ (g2.liteon_valid_res = none) := by
    intro hn
    rw [if_pos hn] at hsel
    exact hsel hn
  rw [if_neg h1, if_neg (show ¬ (env.kzalloc_ok = false) by rw [halloc]; decide),
    if_neg (show ¬ (cam1.pwn_gpio = -EPROBE_DEFER) from hpwnd),
    if_neg (show ¬ (gpio_is_valid cam1.pwn_gpio = true ∧ env.pwn_request ≠ 0) from hpwn),
    if_neg (show ¬ (cam2.rst_gpio = -EPROBE_DEFER) from hrstd),
    if_neg (show ¬ (gpio_is_valid cam2.rst_gpio = true ∧ env.rst_request ≠ 0) from hrst),
    if_neg (show ¬ (env.pads_init ≠ 0) from not_not.mpr hpads)]
  refine ⟨rfl, rfl, ?_⟩
  show hw8 ++ [HwCall.platform_set_drvdata] = _
  by_cases hv : gpio_is_valid env.pwn_gpio = true
  · simp only [hw8, hw7, hw6, hw5, hw4, hw3, hw2, hw1, cam1, cam2, cam3, cam4,
      liteon_tof_enable_power, if_pos hv, List.append_assoc,
      List.singleton_append, List.cons_append, List.nil_append]
  · simp only [hw8, hw7, hw6, hw5, hw4, hw3, hw2, hw1, cam1, cam2, cam3, cam4,
      liteon_tof_enable_power, if_neg hv, List.append_assoc,
      List.singleton_append, List.cons_append, List.nil_append, List.append_nil]

/-- A probe returns 0 only when it passed every exit before `return 0`. -/
theorem probe_ret_zero_conds (env : ProbeEnv) (g : Globals)
    (h : (liteon_tof_probe env g).ret = some 0) :
    env.kzalloc_ok = true ∧ env.pwn_gpio ≠ -EPROBE_DEFER ∧
    ¬ (gpio_is_valid env.pwn_gpio = true ∧ env.pwn_request ≠ 0) ∧
    env.rst_gpio ≠ -EPROBE_DEFER ∧
    ¬ (gpio_is_valid env.rst_gpio = true ∧ env.rst_request ≠ 0) ∧
    env.pads_init = 0 := by
  revert h
  unfold liteon_tof_probe
  lift_lets
  intro g1 g2 g3 hw1 z cam1 hw2 cam2 hw3 cam3 hw4 c3 cam4 hw5 hw6 hw7 hw8 h
  split_ifs at h with h1 h2 h3 h4 h5 h6 h7
  · exact absurd h (by simp [ENODEV])
  · exact absurd h (by simp [EPROBE_DEFER])
  · exact absurd (Option.some.inj h) h4.2
  · exact absurd h (by simp [EPROBE_DEFER])
  · exact absurd (Option.some.inj h) h6.2
  · exact absurd (Option.some.inj h) h7
  · exact ⟨by simpa using h2, h3, h4, h5, h6, not_not.mp h7⟩

/-! ## Facts about the callbacks -/

/-- A `u32` whose conversion to `int` is not negative converts to itself. -/
theorem to_int_of_nonneg {x : Nat} (hx : x < 4294967296) (h : 0 ≤ to_int x) :
    to_int x = (x : Int) := by
  unfold to_int at h ⊢
  have hmod : x % 4294967296 = x := Nat.mod_eq_of_lt hx
  rw [hmod] at h ⊢
  split_ifs at h ⊢ with hlt
  · rfl
  · omega

/-- A small non-negative `int` converts to the `u32` of the same value. -/
theorem to_u32_of_nonneg {x : Int} (h0 : 0 ≤ x) (hx : x < 4294967296) :
    ((to_u32 x : Nat) : Int) = x := by
  unfold to_u32
  rw [Int.emod_eq_of_lt h0 hx]
  exact Int.toNat_of_nonneg h0

/-- The search after a probe (`liteon_res_max = 1`) looks at the first entry of
the table only. -/
theorem find_resulution_one (g : Globals) (e : liteon_tof_res) (rest : List liteon_tof_res)
    (ht : g.liteon_valid_res = some (e :: rest)) (hm : g.liteon_res_max = 1)
    (width height : Int) :
    find_resulution g width height =
      if e.width = width ∧ e.height = height then some 0 else some (-1) := by
  unfold find_resulution
  rw [ht, hm]
  cases rest <;> simp [find_resulution_loop]

/-- No callback writes the process-wide variables. -/
theorem step_globals {s : DevState} {op : Op} {r : Int × DevState}
    (h : op.step s = some r) : r.2.g = s.g := by
  cases op with
  | s_power power_on =>
    simp only [Op.step, liteon_tof_s_power, Option.some.injEq] at h
    subst h; rfl
  | enum_mbus_code code =>
    simp only [Op.step, liteon_tof_enum_mbus_code, Option.some.injEq] at h
    subst h
    split_ifs <;> rfl
  | enum_frame_size fse =>
    simp only [Op.step, liteon_tof_enum_framesizes] at h
    split_ifs at h
    · simp only [Option.map_some', Option.some.injEq] at h
      subst h; rfl
    · cases hr : table_read s.g.liteon_valid_res (fse.index : Int) with
      | none => simp [hr] at h
      | some e =>
        simp only [hr, Option.map_some', Option.some.injEq] at h
        subst h; rfl
  | get_fmt format =>
    simp only [Op.step, liteon_tof_get_fmt] at h
    split_ifs at h
    · simp only [Option.map_some', Option.some.injEq] at h
      subst h; rfl
    · cases hr : table_read s.g.liteon_valid_res (to_int s.cam.cap_parm.capturemode) with
      | none => simp [hr] at h
      | some e =>
        simp only [hr, Option.map_some', Option.some.injEq] at h
        subst h; rfl
  | set_fmt format =>
    simp only [Op.step, liteon_tof_set_fmt] at h
    split_ifs at h
    · simp only [Option.some.injEq] at h
      subst h; rfl
    · cases hr : find_resulution s.g (to_int format.format.width)
          (to_int format.format.height) with
      | none => simp [hr] at h
      | some res =>
        simp only [hr] at h
        split_ifs at h <;> simp only [Option.some.injEq] at h <;> subst h <;> rfl
  | g_parm sparm =>
    simp only [Op.step, liteon_tof_g_parm, Option.some.injEq] at h
    subst h
    split_ifs <;> rfl
  | s_parm sparm =>
    simp only [Op.step, liteon_tof_s_parm, Option.some.injEq] at h
    subst h
    split_ifs <;> rfl

/-- A sequence of callbacks leaves the process-wide variables as they were. -/
theorem run_globals {ops : List Op} {s s' : DevState} (h : run s ops = some s') :
    s'.g = s.g := by
  induction ops generalizing s with
  | nil =>
    simp only [run, Option.some.injEq] at h
    subst h; rfl
  | cons op ops ih =>
    simp only [run] at h
    cases hstep : op.step s with
    | none => simp [hstep] at h
    | some r =>
      simp only [hstep] at h
      rw [ih h, step_globals hstep]

/-- Every state reached from a successfully probed device by the public
operations still has one of the built-in tables selected and
`liteon_res_max = 1`. -/
theorem reached_globals {env : ProbeEnv} {g : Globals} {s0 s : DevState} {ops : List Op}
    (hg : GlobalsReachable g) (hp : probed env g = some s0) (hr : run s0 ops = some s) :
    (s.g.liteon_valid_res = some liteon_tof_valid_res ∨
      s.g.liteon_valid_res = some liteon_tof_vga_valid_res) ∧
    s.g.liteon_res_max = 1 := by
  rw [run_globals hr]
  exact ⟨(probed_state hg hp).1, (probed_state hg hp).2.1⟩

/-- The read of `liteon_tof_get_fmt` on pad 0 when the capture mode is a
position of the selected table. -/
theorem get_fmt_pad_zero (s : DevState) (format : v4l2_subdev_format)
    (table : List liteon_tof_res) (e : liteon_tof_res)
    (ht : s.g.liteon_valid_res = some table)
    (hlt : s.cam.cap_parm.capturemode < 2147483648)
    (he : table[s.cam.cap_parm.capturemode]? = some e) (hpad : format.pad = 0) :
    liteon_tof_get_fmt s format =
      some (0, s, { format with
        format := { format.format with
          code := MEDIA_BUS_FMT_SBGGR12_1X12
          colorspace := V4L2_COLORSPACE_RAW
          field := V4L2_FIELD_NONE
          width := to_u32 e.width
          height := to_u32 e.height } }) := by
  have hmod : s.cam.cap_parm.capturemode % 4294967296 = s.cam.cap_parm.capturemode :=
    Nat.mod_eq_of_lt (by omega)
  have hint : to_int s.cam.cap_parm.capturemode = (s.cam.cap_parm.capturemode : Int) := by
    unfold to_int
    rw [hmod, if_pos hlt]
  have hread : table_read s.g.liteon_valid_res (to_int s.cam.cap_parm.capturemode) = some e := by
    rw [hint, ht]
    simp only [table_read, Int.toNat_ofNat, Int.natCast_nonneg, if_true]
    exact he
  unfold liteon_tof_get_fmt
  simp only [hpad, ne_eq, not_true_eq_false, if_false, hread]

/-- The entries of the two built-in tables fit `u32`. -/
theorem builtin_entries_fit (table : List liteon_tof_res)
    (hb : table = liteon_tof_valid_res ∨ table = liteon_tof_vga_valid_res) :
    table.length = 6 ∧ ∀ e ∈ table,
      0 ≤ e.width ∧ e.width < 4294967296 ∧ 0 ≤ e.height ∧ e.height < 4294967296 := by
  rcases hb with h | h <;> subst h <;> exact ⟨rfl, by decide⟩

/-! ## Claims on format negotiation -/

/-- Claim C1, the code at the failing input: after a successful probe of the
`lton,liteon_tof` variant, `liteon_tof_set_fmt` with the supported pixel code
and the second catalog entry 224x173 returns `-EINVAL` instead of 0 and leaves
the state as it was, and `liteon_tof_get_fmt` on pad 0 then reports 224x172. -/
theorem C1_set_fmt_rejects_second_entry :
    probed env_tof Globals.initial = some dev_tof ∧
    (⟨224, 173⟩ : liteon_tof_res) ∈ liteon_tof_valid_res ∧
    liteon_tof_set_fmt dev_tof (format_of 224 173) = some (-EINVAL, dev_tof) ∧
    (liteon_tof_get_fmt dev_tof (format_of 0 0)).map
      (fun r => (r.1, r.2.2.format.width, r.2.2.format.height)) = some (0, 224, 172) := by
  refine ⟨rfl, by decide, by decide, by decide⟩

/-- Claim C2, the code at the failing input: after a successful probe
`liteon_tof_g_parm` reports capture mode 0; `liteon_tof_s_parm` for the
video-capture type with capture mode 6 (the number of catalog entries) returns
`-EINVAL`, and `liteon_tof_g_parm` then reports capture mode 6. -/
theorem C2_s_parm_rejected_mode_is_stored :
    probed env_tof Globals.initial = some dev_tof ∧
    liteon_tof_valid_res.length = 6 ∧
    (liteon_tof_g_parm dev_tof
      (streamparm_of V4L2_BUF_TYPE_VIDEO_CAPTURE 0)).2.2.capture.capturemode = 0 ∧
    (liteon_tof_s_parm dev_tof (streamparm_of V4L2_BUF_TYPE_VIDEO_CAPTURE 6)).1 = -EINVAL ∧
    (liteon_tof_g_parm
        (liteon_tof_s_parm dev_tof (streamparm_of V4L2_BUF_TYPE_VIDEO_CAPTURE 6)).2
        (streamparm_of V4L2_BUF_TYPE_VIDEO_CAPTURE 0)).2.2.capture.capturemode = 6 := by
  refine ⟨rfl, by decide, by decide, by decide, by decide⟩

/-- Claim C3, the code at the failing input: after a successful probe of the
`lton,liteon_tof` variant (six catalog entries, `liteon_res_max = 1`),
`liteon_tof_enum_framesizes` returns `-EINVAL` for index 2, a valid catalog
position, and writes nothing; it returns 0 with 224x173 for index 1, the
position equal to `liteon_res_max`. -/
theorem C3_enum_framesizes_rejects_valid_index :
    probed env_tof Globals.initial = some dev_tof ∧
    dev_tof.g.liteon_valid_res = some liteon_tof_valid_res ∧
    liteon_tof_valid_res.length = 6 ∧ dev_tof.g.liteon_res_max = 1 ∧
    liteon_tof_enum_framesizes dev_tof (fse_of 2) = some (-EINVAL, dev_tof, fse_of 2) ∧
    liteon_tof_enum_framesizes dev_tof (fse_of 1) =
      some (0, dev_tof, { fse_of 1 with
        min_width := 224, max_width := 224, min_height := 173, max_height := 173 }) := by
  refine ⟨rfl, by decide, by decide, by decide, by decide, by decide⟩

/-- Claim C4, the code at the failing input: from a successfully probed device
the single operation `s_parm` with the video-capture type and capture mode 6
reaches a state whose capture mode is 6, not below the six entries of the
selected table, and there the read `liteon_valid_res[capmode]` of
`liteon_tof_get_fmt` falls outside the table. -/
theorem C4_capturemode_leaves_catalog :
    probed env_tof Globals.initial = some dev_tof ∧
    ∃ s, run dev_tof [Op.s_parm (streamparm_of V4L2_BUF_TYPE_VIDEO_CAPTURE 6)] = some s ∧
      s.g.liteon_valid_res = some liteon_tof_valid_res ∧
      liteon_tof_valid_res.length = 6 ∧
      s.cam.cap_parm.capturemode = 6 ∧
      liteon_tof_get_fmt s (format_of 0 0) = none := by
  refine ⟨rfl, _, rfl, by decide, by decide, by decide, by decide⟩

/-- Claim C5: in every state reached from a successful probe, for every `u32`
width and height that equal no entry of the selected table,
`liteon_tof_set_fmt` with the code `MEDIA_BUS_FMT_SBGGR12_1X12` returns
`-EINVAL`, the capture mode is unchanged, and `liteon_tof_get_fmt` answers
after the call what it answers before it. -/
theorem C5_set_fmt_unsupported_resolution
    (env : ProbeEnv) (g : Globals) (s0 s : DevState) (ops : List Op)
    (table : List liteon_tof_res) (format : v4l2_subdev_format)
    (hg : GlobalsReachable g) (hp : probed env g = some s0) (hr : run s0 ops = some s)
    (ht : s.g.liteon_valid_res = some table)
    (hcode : format.format.code = MEDIA_BUS_FMT_SBGGR12_1X12)
    (hw : format.format.width < 4294967296) (hh : format.format.height < 4294967296)
    (hnot : ∀ e ∈ table,
      ¬ (e.width = (format.format.width : Int) ∧ e.height = (format.format.height : Int))) :
    ∃ s', liteon_tof_set_fmt s format = some (-EINVAL, s') ∧
      s'.cam.cap_parm.capturemode = s.cam.cap_parm.capturemode ∧
      ∀ query, (liteon_tof_get_fmt s' query).map (fun r => (r.1, r.2.2)) =
        (liteon_tof_get_fmt s query).map (fun r => (r.1, r.2.2)) := by
  obtain ⟨htab, hmax⟩ := reached_globals hg hp hr
  refine ⟨s, ?_, rfl, fun _ => rfl⟩
  have hmiss : ∀ e rest, table = e :: rest → 0 ≤ e.width → 0 ≤ e.height →
      find_resulution s.g (to_int format.format.width) (to_int format.format.height)
        = some (-1) := by
    intro e rest hcons h0w h0h
    rw [find_resulution_one s.g e rest (by rw [ht, hcons]) hmax]
    rw [if_neg]
    rintro ⟨h1, h2⟩
    apply hnot e (by rw [hcons]; exact List.mem_cons_self _ _)
    constructor
    · rw [h1]; exact to_int_of_nonneg hw (h1 ▸ h0w)
    · rw [h2]; exact to_int_of_nonneg hh (h2 ▸ h0h)
  have hfind : find_resulution s.g (to_int format.format.width)
      (to_int format.format.height) = some (-1) := by
    rcases htab with h | h
    · rw [ht] at h
      exact hmiss _ _ (Option.some.inj h) (by decide) (by decide)
    · rw [ht] at h
      exact hmiss _ _ (Option.some.inj h) (by decide) (by decide)
  unfold liteon_tof_set_fmt
  rw [if_neg (not_not.mpr hcode), hfind]
  rfl

/-- Witness of claim C5: after a probe of the `lton,liteon_tof` variant the
size 100x100, which is in no table, is rejected. -/
theorem C5_set_fmt_unsupported_resolution_witness :
    probed env_tof Globals.initial = some dev_tof ∧ run dev_tof [] = some dev_tof ∧
    (∀ e ∈ liteon_tof_valid_res, ¬ (e.width = 100 ∧ e.height = 100)) ∧
    ∃ s', liteon_tof_set_fmt dev_tof (format_of 100 100) = some (-EINVAL, s') ∧
      s'.cam.cap_parm.capturemode = dev_tof.cam.cap_parm.capturemode ∧
      ∀ query, (liteon_tof_get_fmt s' query).map (fun r => (r.1, r.2.2)) =
        (liteon_tof_get_fmt dev_tof query).map (fun r => (r.1, r.2.2)) :=
  ⟨rfl, rfl, by decide,
    C5_set_fmt_unsupported_resolution env_tof Globals.initial dev_tof dev_tof []
      liteon_tof_valid_res (format_of 100 100) GlobalsReachable.initial rfl rfl rfl rfl
      (by decide) (by decide) (by decide)⟩

/-- Claim C6: in every device state, for every pixel code other than
`MEDIA_BUS_FMT_SBGGR12_1X12` and every width and height, `liteon_tof_set_fmt`
returns `-EINVAL` and leaves the capture mode (and all the state) unchanged. -/
theorem C6_set_fmt_unsupported_code (s : DevState) (format : v4l2_subdev_format)
    (hcode : format.format.code ≠ MEDIA_BUS_FMT_SBGGR12_1X12) :
    ∃ s', liteon_tof_set_fmt s format = some (-EINVAL, s') ∧
      s'.cam.cap_parm.capturemode = s.cam.cap_parm.capturemode ∧ s' = s := by
  refine ⟨s, ?_, rfl, rfl⟩
  unfold liteon_tof_set_fmt
  rw [if_pos hcode]

/-- Witness of claim C6: the first catalog entry 224x172 offered with pixel
code 0 is rejected after a probe of the `lton,liteon_tof` variant. -/
theorem C6_set_fmt_unsupported_code_witness :
    ∃ s', liteon_tof_set_fmt dev_tof ⟨0, 0, ⟨224, 172, 0, 0, 0, []⟩⟩ = some (-EINVAL, s') ∧
      s'.cam.cap_parm.capturemode = dev_tof.cam.cap_parm.capturemode ∧ s' = dev_tof :=
  C6_set_fmt_unsupported_code dev_tof ⟨0, 0, ⟨224, 172, 0, 0, 0, []⟩⟩ (by decide)

/-- Claim C7: starting from the initial process state, a probe that finds only
the `lton,liteon_tof` node selects the table whose first entry is 224x172; a
probe that finds the `lton,liteon_tof_vga` node selects the table whose first
entry is 640x240; a probe that finds neither node returns `-ENODEV`, sets no
driver data and calls no framework function. -/
theorem C7_catalog_selection (env : ProbeEnv) :
    (env.dn_tof = true → env.dn_tof_vga = false →
      (liteon_tof_probe env Globals.initial).g.liteon_valid_res = some liteon_tof_valid_res ∧
      liteon_tof_valid_res.head? = some ⟨224, 172⟩) ∧
    (env.dn_tof_vga = true →
      (liteon_tof_probe env Globals.initial).g.liteon_valid_res
        = some liteon_tof_vga_valid_res ∧
      liteon_tof_vga_valid_res.head? = some ⟨640, 240⟩) ∧
    (env.dn_tof = false → env.dn_tof_vga = false →
      (liteon_tof_probe env Globals.initial).ret = some (-ENODEV) ∧
      (liteon_tof_probe env Globals.initial).drvdata = none ∧
      (liteon_tof_probe env Globals.initial).hw = []) := by
  refine ⟨fun h1 h2 => ⟨?_, rfl⟩, fun h2 => ⟨?_, rfl⟩, fun h1 h2 => ?_⟩
  · rw [probe_valid_res, h1, h2]; rfl
  · rw [probe_valid_res, h2]; rfl
  · unfold liteon_tof_probe
    lift_lets
    intro g1 g2 g3 hw1 z cam1 hw2 cam2 hw3 cam3 hw4 c3 cam4 hw5 hw6 hw7 hw8
    have hnull : g2.liteon_valid_res = none := by
      simp only [g2, g1, h1, h2]
      rfl
    rw [if_pos hnull]
    exact ⟨rfl, rfl, rfl⟩

/-- Witness of claim C7: the three cases on the boards `env_tof`,
`env_tof_vga` and `env_no_variant`. -/
theorem C7_catalog_selection_witness :
    ((liteon_tof_probe env_tof Globals.initial).g.liteon_valid_res
        = some liteon_tof_valid_res ∧
      liteon_tof_valid_res.head? = some ⟨224, 172⟩) ∧
    ((liteon_tof_probe env_tof_vga Globals.initial).g.liteon_valid_res
        = some liteon_tof_vga_valid_res ∧
      liteon_tof_vga_valid_res.head? = some ⟨640, 240⟩) ∧
    ((liteon_tof_probe env_no_variant Globals.initial).ret = some (-ENODEV) ∧
      (liteon_tof_probe env_no_variant Globals.initial).drvdata = none ∧
      (liteon_tof_probe env_no_variant Globals.initial).hw = []) :=
  ⟨(C7_catalog_selection env_tof).1 rfl rfl,
    (C7_catalog_selection env_tof_vga).2.1 rfl,
    (C7_catalog_selection env_no_variant).2.2 rfl rfl⟩

/-- Claim C8: in every device state whose table is one of the two built-in
tables and whose capture mode is a position of that table holding entry `e`,
`liteon_tof_get_fmt` returns `-EINVAL` and writes nothing when the pad is not
0, and for pad 0 returns 0 with code `MEDIA_BUS_FMT_SBGGR12_1X12`, colorspace
`V4L2_COLORSPACE_RAW`, field `V4L2_FIELD_NONE`, the width and height of `e`,
and the other members as they were; the device state is unchanged in both
cases. -/
theorem C8_get_fmt_spec (s : DevState) (format : v4l2_subdev_format)
    (table : List liteon_tof_res) (e : liteon_tof_res)
    (ht : s.g.liteon_valid_res = some table)
    (hb : table = liteon_tof_valid_res ∨ table = liteon_tof_vga_valid_res)
    (he : table[s.cam.cap_parm.capturemode]? = some e) :
    (format.pad ≠ 0 → liteon_tof_get_fmt s format = some (-EINVAL, s, format)) ∧
    (format.pad = 0 → ∃ out, liteon_tof_get_fmt s format = some (0, s, out) ∧
      out.format.code = MEDIA_BUS_FMT_SBGGR12_1X12 ∧
      out.format.colorspace = V4L2_COLORSPACE_RAW ∧
      out.format.field = V4L2_FIELD_NONE ∧
      (out.format.width : Int) = e.width ∧ (out.format.height : Int) = e.height ∧
      out.which = format.which ∧ out.pad = format.pad ∧
      out.format.rest = format.format.rest) := by
  constructor
  · intro hpad
    unfold liteon_tof_get_fmt
    simp only [hpad, ne_eq, not_false_eq_true, if_true]
  · intro hpad
    obtain ⟨hlen, hfit⟩ := builtin_entries_fit table hb
    have hpos : s.cam.cap_parm.capturemode < table.length := by
      by_contra hge
      rw [List.getElem?_eq_none (Nat.le_of_not_lt hge)] at he
      exact Option.noConfusion he
    have hmem : e ∈ table := List.getElem?_mem he
    obtain ⟨h0w, hw, h0h, hh⟩ := hfit e hmem
    refine ⟨_, get_fmt_pad_zero s format table e ht (by omega) he hpad,
      rfl, rfl, rfl, to_u32_of_nonneg h0w hw, to_u32_of_nonneg h0h hh, rfl, rfl, rfl⟩

/-- Witness of claim C8: right after a probe of the `lton,liteon_tof` variant
the capture mode 0 holds entry 224x172. -/
theorem C8_get_fmt_spec_witness :
    probed env_tof Globals.initial = some dev_tof ∧
      (liteon_tof_get_fmt dev_tof ⟨0, 1, ⟨0, 0, 0, 0, 0, []⟩⟩
        = some (-EINVAL, dev_tof, ⟨0, 1, ⟨0, 0, 0, 0, 0, []⟩⟩)) ∧
      ∃ out, liteon_tof_get_fmt dev_tof ⟨0, 0, ⟨0, 0, 0, 0, 0, []⟩⟩ = some (0, dev_tof, out) ∧
        out.format.code = MEDIA_BUS_FMT_SBGGR12_1X12 ∧
        out.format.colorspace = V4L2_COLORSPACE_RAW ∧
        out.format.field = V4L2_FIELD_NONE ∧
        (out.format.width : Int) = 224 ∧ (out.format.height : Int) = 172 ∧
        out.which = 0 ∧ out.pad = 0 ∧ out.format.rest = [] :=
  ⟨rfl,
    (C8_get_fmt_spec dev_tof ⟨0, 1, ⟨0, 0, 0, 0, 0, []⟩⟩ liteon_tof_valid_res ⟨224, 172⟩
      rfl (Or.inl rfl) rfl).1 (by decide),
    (C8_get_fmt_spec dev_tof ⟨0, 0, ⟨0, 0, 0, 0, 0, []⟩⟩ liteon_tof_valid_res ⟨224, 172⟩
      rfl (Or.inl rfl) rfl).2 rfl⟩

/-! ## Claims on the capture parameters and the pixel code -/

/-- Claim C9: for every device state and every input, `liteon_tof_g_parm`
returns 0 exactly when the input type is `V4L2_BUF_TYPE_VIDEO_CAPTURE` or
`V4L2_BUF_TYPE_VIDEO_CAPTURE_MPLANE`; the output then carries the capability
and capture mode of the device and zero in every other member; for any other
type it returns `-EINVAL`; the device state is unchanged in both cases. -/
theorem C9_g_parm_spec (s : DevState) (sparm : v4l2_streamparm) :
    ((liteon_tof_g_parm s sparm).1 = 0 ↔
      (sparm.type = V4L2_BUF_TYPE_VIDEO_CAPTURE ∨
        sparm.type = V4L2_BUF_TYPE_VIDEO_CAPTURE_MPLANE)) ∧
    ((sparm.type = V4L2_BUF_TYPE_VIDEO_CAPTURE ∨
        sparm.type = V4L2_BUF_TYPE_VIDEO_CAPTURE_MPLANE) →
      (liteon_tof_g_parm s sparm).2.2 =
        ⟨0, ⟨s.cam.cap_parm.capability, s.cam.cap_parm.capturemode, ⟨0, 0⟩, 0, 0,
          [0, 0, 0, 0]⟩⟩) ∧
    (¬ (sparm.type = V4L2_BUF_TYPE_VIDEO_CAPTURE ∨
        sparm.type = V4L2_BUF_TYPE_VIDEO_CAPTURE_MPLANE) →
      (liteon_tof_g_parm s sparm).1 = -EINVAL) ∧
    (liteon_tof_g_parm s sparm).2.1 = s := by
  unfold liteon_tof_g_parm
  by_cases h : sparm.type = V4L2_BUF_TYPE_VIDEO_CAPTURE ∨
      sparm.type = V4L2_BUF_TYPE_VIDEO_CAPTURE_MPLANE
  · rw [if_pos h]
    exact ⟨⟨fun _ => h, fun _ => rfl⟩, fun _ => rfl, fun hn => absurd h hn, rfl⟩
  · rw [if_neg h]
    refine ⟨⟨fun h0 => ?_, fun hc => absurd hc h⟩, fun hc => absurd hc h, fun _ => rfl, rfl⟩
    exact absurd h0 (show ¬ ((-EINVAL : Int) = 0) by decide)

/-- Witness of claim C9: a multi-plane query whose members are all non-zero
is answered with the device values and zeros, and buffer type 2 is refused. -/
theorem C9_g_parm_spec_witness :
    (liteon_tof_g_parm dev_tof ⟨V4L2_BUF_TYPE_VIDEO_CAPTURE_MPLANE, ⟨7, 7, ⟨7, 7⟩, 7, 7,
        [7, 7, 7, 7]⟩⟩).2.2 = ⟨0, ⟨0, 0, ⟨0, 0⟩, 0, 0, [0, 0, 0, 0]⟩⟩ ∧
    (liteon_tof_g_parm dev_tof ⟨2, v4l2_captureparm.zero⟩).1 = -EINVAL :=
  ⟨(C9_g_parm_spec dev_tof ⟨V4L2_BUF_TYPE_VIDEO_CAPTURE_MPLANE, ⟨7, 7, ⟨7, 7⟩, 7, 7,
      [7, 7, 7, 7]⟩⟩).2.1 (Or.inr rfl),
    (C9_g_parm_spec dev_tof ⟨2, v4l2_captureparm.zero⟩).2.2.1 (by decide)⟩

/-- Claim C10: for every pad and index, `liteon_tof_enum_mbus_code` returns 0
and reports the code `MEDIA_BUS_FMT_SBGGR12_1X12` if and only if pad and index
are both 0; in every other case it returns `-EINVAL` and leaves the argument,
its code member included, as it was. -/
theorem C10_enum_mbus_code_spec (s : DevState) (code : v4l2_subdev_mbus_code_enum) :
    (((liteon_tof_enum_mbus_code s code).1 = 0 ∧
        (liteon_tof_enum_mbus_code s code).2.2.code = MEDIA_BUS_FMT_SBGGR12_1X12) ↔
      (code.pad = 0 ∧ code.index = 0)) ∧
    (¬ (code.pad = 0 ∧ code.index = 0) →
      (liteon_tof_enum_mbus_code s code).1 = -EINVAL ∧
      (liteon_tof_enum_mbus_code s code).2.2 = code) := by
  unfold liteon_tof_enum_mbus_code
  by_cases h : code.pad ≠ 0 ∨ code.index ≠ 0
  · rw [if_pos h]
    have hn : ¬ (code.pad = 0 ∧ code.index = 0) := by
      rintro ⟨h1, h2⟩
      rcases h with h | h
      · exact h h1
      · exact h h2
    refine ⟨⟨fun h0 => ?_, fun hc => absurd hc hn⟩, fun _ => ⟨rfl, rfl⟩⟩
    exact absurd h0.1 (show ¬ ((-EINVAL : Int) = 0) by decide)
  · rw [if_neg h]
    have hy : code.pad = 0 ∧ code.index = 0 := by
      constructor
      · by_contra hc; exact h (Or.inl hc)
      · by_contra hc; exact h (Or.inr hc)
    exact ⟨⟨fun _ => hy, fun _ => ⟨rfl, rfl⟩⟩, fun hn => absurd hy hn⟩

/-- Witness of claim C10: pad 0 with index 1 is refused and the code member
keeps its value 5. -/
theorem C10_enum_mbus_code_spec_witness :
    (liteon_tof_enum_mbus_code dev_tof ⟨0, 1, 5, 0⟩).1 = -EINVAL ∧
    (liteon_tof_enum_mbus_code dev_tof ⟨0, 1, 5, 0⟩).2.2 = ⟨0, 1, 5, 0⟩ :=
  (C10_enum_mbus_code_spec dev_tof ⟨0, 1, 5, 0⟩).2 (by decide)

/-! ## Claims on construction -/

/-- Claim C12, the code at the failing input: on the board
`env_defer_alloc_fails` a variant matches and the lookup of the power-enable
line answers `-EPROBE_DEFER`, and `liteon_tof_probe` does not return
`-EPROBE_DEFER`: `devm_kzalloc` returned `NULL`, unchecked, and the answer of
the lookup is stored through that pointer before it is compared. -/
theorem C12_deferred_lookup_on_null_device :
    (env_defer_alloc_fails.dn_tof = true ∨ env_defer_alloc_fails.dn_tof_vga = true) ∧
    env_defer_alloc_fails.pwn_gpio = -EPROBE_DEFER ∧
    (liteon_tof_probe env_defer_alloc_fails Globals.initial).ret = none ∧
    (liteon_tof_probe env_defer_alloc_fails Globals.initial).ret ≠ some (-EPROBE_DEFER) := by
  decide

/-- With the device structure allocated and a variant found, if the lookup of
the power-enable line answers `-EPROBE_DEFER`, or that line is absent or
successfully requested and the lookup of the reset line answers
`-EPROBE_DEFER`, then `liteon_tof_probe` returns `-EPROBE_DEFER` and sets no
driver data, having enabled no clock, driven no line (no
`gpio_direction_input`, no `gpio_direction_output`) and registered no
subdevice: its only framework calls are the pin-configuration selection and
the request of the power-enable line. -/
theorem probe_deferred_retry (env : ProbeEnv) (g : Globals)
    (halloc : env.kzalloc_ok = true)
    (hv : env.dn_tof = true ∨ env.dn_tof_vga = true)
    (hdefer : env.pwn_gpio = -EPROBE_DEFER ∨
      ((gpio_is_valid env.pwn_gpio = false ∨
          (gpio_is_valid env.pwn_gpio = true ∧ env.pwn_request = 0)) ∧
        env.rst_gpio = -EPROBE_DEFER)) :
    (liteon_tof_probe env g).ret = some (-EPROBE_DEFER) ∧
    (liteon_tof_probe env g).drvdata = none ∧
    (∀ call ∈ (liteon_tof_probe env g).hw,
      call = HwCall.pinctrl_get_select_default ∨
      call = HwCall.gpio_request_one env.pwn_gpio) ∧
    (∀ clk, HwCall.clk_prepare_enable clk ∉ (liteon_tof_probe env g).hw) ∧
    (∀ gpio, HwCall.gpio_direction_input gpio ∉ (liteon_tof_probe env g).hw) ∧
    (∀ gpio level, HwCall.gpio_direction_output gpio level ∉ (liteon_tof_probe env g).hw) ∧
    HwCall.v4l2_async_register_subdev ∉ (liteon_tof_probe env g).hw := by
  have hcalls : (liteon_tof_probe env g).ret = some (-EPROBE_DEFER) ∧
      (liteon_tof_probe env g).drvdata = none ∧
      ∀ call ∈ (liteon_tof_probe env g).hw,
        call = HwCall.pinctrl_get_select_default ∨
        call = HwCall.gpio_request_one env.pwn_gpio := by
    have hsel := probe_selected_of_variant env g hv
    revert hsel
    unfold liteon_tof_probe
    lift_lets
    intro g1 g2 g3 hw1 z cam1 hw2 cam2 hw3 cam3 hw4 c3 cam4 hw5 hw6 hw7 hw8 hsel
    have h1 : ¬ (g2.liteon_valid_res = none) := by
      intro hn
      rw [if_pos hn] at hsel
      exact hsel hn
    rw [if_neg h1, if_neg (show ¬ (env.kzalloc_ok = false) by rw [halloc]; decide)]
    by_cases hp : env.pwn_gpio = -EPROBE_DEFER
    · rw [if_pos (show cam1.pwn_gpio = -EPROBE_DEFER from hp)]
      refine ⟨rfl, rfl, fun call hcall => Or.inl ?_⟩
      exact List.mem_singleton.mp hcall
    · rcases hdefer with hd | ⟨hline, hr⟩
      · exact absurd hd hp
      · have hreq : ¬ (gpio_is_valid cam1.pwn_gpio = true ∧ env.pwn_request ≠ 0) := by
          rintro ⟨hvalid, hfail⟩
          rcases hline with hl | hl
          · rw [show gpio_is_valid env.pwn_gpio = true from hvalid] at hl
            exact absurd hl (by decide)
          · exact hfail hl.2
        rw [if_neg (show ¬ (cam1.pwn_gpio = -EPROBE_DEFER) from hp), if_neg hreq,
          if_pos (show cam2.rst_gpio = -EPROBE_DEFER from hr)]
        refine ⟨rfl, rfl, fun call hcall => ?_⟩
        have hmem : call ∈ hw1 ++ (if gpio_is_valid env.pwn_gpio = true then
            [HwCall.gpio_request_one env.pwn_gpio] else []) := hcall
        rcases List.mem_append.mp hmem with h | h
        · exact Or.inl (List.mem_singleton.mp h)
        · split_ifs at h
          · exact Or.inr (List.mem_singleton.mp h)
          · exact absurd h (List.not_mem_nil _)
  obtain ⟨hret, hdrv, hmem⟩ := hcalls
  refine ⟨hret, hdrv, hmem, ?_, ?_, ?_, ?_⟩
  · intro clk hin
    rcases hmem _ hin with h | h <;> exact HwCall.noConfusion h
  · intro gpio hin
    rcases hmem _ hin with h | h <;> exact HwCall.noConfusion h
  · intro gpio level hin
    rcases hmem _ hin with h | h <;> exact HwCall.noConfusion h
  · intro hin
    rcases hmem _ hin with h | h <;> exact HwCall.noConfusion h

/-- The deferred retry on the board `env_defer`: the power-down line 4 is
requested and the lookup of the reset line answers `-EPROBE_DEFER`. -/
theorem probe_deferred_retry_on_env_defer :
    (liteon_tof_probe env_defer Globals.initial).ret = some (-EPROBE_DEFER) ∧
    (liteon_tof_probe env_defer Globals.initial).drvdata = none ∧
    (∀ call ∈ (liteon_tof_probe env_defer Globals.initial).hw,
      call = HwCall.pinctrl_get_select_default ∨
      call = HwCall.gpio_request_one env_defer.pwn_gpio) ∧
    (∀ clk, HwCall.clk_prepare_enable clk ∉ (liteon_tof_probe env_defer Globals.initial).hw) ∧
    (∀ gpio,
      HwCall.gpio_direction_input gpio ∉ (liteon_tof_probe env_defer Globals.initial).hw) ∧
    (∀ gpio level, HwCall.gpio_direction_output gpio level ∉
      (liteon_tof_probe env_defer Globals.initial).hw) ∧
    HwCall.v4l2_async_register_subdev ∉ (liteon_tof_probe env_defer Globals.initial).hw :=
  probe_deferred_retry env_defer Globals.initial rfl (Or.inl rfl)
    (Or.inr ⟨Or.inr ⟨by decide, rfl⟩, by decide⟩)

/-! ## Facts about the lifecycle and the frame of the callbacks -/

/-- The device structure and the framework calls of a successfully probed
device. -/
theorem probed_shape {env : ProbeEnv} {g : Globals} {s : DevState}
    (hp : probed env g = some s) :
    ¬ (gpio_is_valid env.rst_gpio = true ∧ env.rst_request ≠ 0) ∧
    s.cam = ⟨v4l2_captureparm.zero, if env.clk_err = true then none else env.clk,
        env.pwn_gpio, env.rst_gpio⟩ ∧
    s.hw =
      [HwCall.pinctrl_get_select_default] ++
      (if gpio_is_valid env.pwn_gpio = true then [HwCall.gpio_request_one env.pwn_gpio]
        else []) ++
      (if gpio_is_valid env.rst_gpio = true then [HwCall.gpio_request_one env.rst_gpio]
        else []) ++
      (if env.clk_err = true then [] else [HwCall.clk_prepare_enable env.clk]) ++
      (if gpio_is_valid env.pwn_gpio = true then [HwCall.gpio_direction_input env.pwn_gpio]
        else []) ++
      (if gpio_is_valid env.rst_gpio = true then [HwCall.gpio_direction_output env.rst_gpio 0]
        else []) ++
      [HwCall.media_entity_pads_init, HwCall.v4l2_async_register_subdev] ++
      (if env.register_subdev ≠ 0 then [HwCall.media_entity_cleanup] else []) ++
      [HwCall.platform_set_drvdata] := by
  unfold probed at hp
  simp only at hp
  split_ifs at hp with hret
  obtain ⟨halloc, hpwnd, hpwn, hrstd, hrst, hpads⟩ := probe_ret_zero_conds env g hret
  obtain ⟨_, hcam, hhw⟩ := probe_success env g (probe_ret_zero env g hret).2.1 halloc hpwnd
    hpwn hrstd hrst hpads
  rw [hcam] at hp
  simp only [Option.map_some', Option.some.injEq] at hp
  subst hp
  exact ⟨hrst, rfl, hhw⟩

/-- The power state of a successfully probed device. -/
theorem probed_active {env : ProbeEnv} {g : Globals} {s : DevState}
    (hx : env.gpio_exclusive) (hp : probed env g = some s) :
    power_active s ∧
    ∀ clk, s.cam.clk = some clk → clk_enables s.hw clk = 1 ∧ clk_disables s.hw clk = 0 := by
  obtain ⟨hrst, hcam, hhw⟩ := probed_shape hp
  have hpw : s.cam.pwn_gpio = env.pwn_gpio := by rw [hcam]
  have hrs : s.cam.rst_gpio = env.rst_gpio := by rw [hcam]
  have hck : s.cam.clk = if env.clk_err = true then none else env.clk := by rw [hcam]
  have hcount : ∀ clk, s.cam.clk = some clk →
      clk_enables s.hw clk = 1 ∧ clk_disables s.hw clk = 0 := by
    intro clk hclk
    rw [hck] at hclk
    split_ifs at hclk with herr
    rw [hhw, if_neg herr, hclk]
    unfold clk_enables clk_disables
    constructor
    · split_ifs <;> simp [List.count_cons]
    · split_ifs <;> simp [List.count_cons]
  refine ⟨⟨?_, ?_, ?_⟩, hcount⟩
  · rw [hpw]
    intro hv
    have hne : gpio_is_valid env.rst_gpio = true → env.rst_gpio ≠ env.pwn_gpio := by
      intro hvr heq
      exact hrst ⟨hvr, hx hv heq⟩
    rw [hhw, if_pos hv]
    unfold line_state
    by_cases hvr : gpio_is_valid env.rst_gpio = true
    · have := hne hvr
      split_ifs <;> simp [HwCall.line_effect, this]
    · split_ifs <;> simp [HwCall.line_effect]
  · rw [hrs]
    intro hvr
    rw [hhw, if_pos hvr]
    unfold line_state
    split_ifs <;> simp [HwCall.line_effect]
  · intro clk hclk
    rw [(hcount clk hclk).1, (hcount clk hclk).2]


/-- Nothing differs between a state and itself. -/
theorem same_but_capturemode_refl (s : DevState) : same_but_capturemode s s :=
  ⟨rfl, rfl, rfl, rfl, rfl, rfl⟩

/-- Two changes of the capture mode in a row change the capture mode only. -/
theorem same_but_capturemode_trans {s s' s'' : DevState}
    (h : same_but_capturemode s s') (h' : same_but_capturemode s' s'') :
    same_but_capturemode s s'' := by
  obtain ⟨h1, h2, h3, h4, h5, h6⟩ := h
  obtain ⟨k1, k2, k3, k4, k5, k6⟩ := h'
  refine ⟨k1.trans h1, k2.trans h2, k3.trans h3, k4.trans h4, k5.trans h5, ?_⟩
  rw [k6, h6]

/-- The callback `liteon_tof_s_parm` changes the capture mode only. -/
theorem s_parm_frame (s : DevState) (sparm : v4l2_streamparm) :
    same_but_capturemode s (liteon_tof_s_parm s sparm).2 := by
  unfold liteon_tof_s_parm
  by_cases h : sparm.type = V4L2_BUF_TYPE_VIDEO_CAPTURE ∨
      sparm.type = V4L2_BUF_TYPE_VIDEO_CAPTURE_MPLANE
  · rw [if_pos h]
    exact ⟨rfl, rfl, rfl, rfl, rfl, rfl⟩
  · rw [if_neg h]
    exact same_but_capturemode_refl s

/-- The callback `liteon_tof_g_parm` changes nothing. -/
theorem g_parm_frame (s : DevState) (sparm : v4l2_streamparm) :
    (liteon_tof_g_parm s sparm).2.1 = s := by
  unfold liteon_tof_g_parm
  split_ifs <;> rfl

/-- The callback `liteon_tof_enum_mbus_code` changes nothing. -/
theorem enum_mbus_code_frame (s : DevState) (code : v4l2_subdev_mbus_code_enum) :
    (liteon_tof_enum_mbus_code s code).2.1 = s := by
  unfold liteon_tof_enum_mbus_code
  split_ifs <;> rfl

/-- The callback `liteon_tof_enum_framesizes` changes nothing. -/
theorem enum_framesizes_frame (s : DevState) (fse : v4l2_subdev_frame_size_enum)
    (r : Int × DevState × v4l2_subdev_frame_size_enum)
    (h : liteon_tof_enum_framesizes s fse = some r) : r.2.1 = s := by
  unfold liteon_tof_enum_framesizes at h
  split_ifs at h
  · simp only [Option.some.injEq] at h
    subst h; rfl
  · cases hr : table_read s.g.liteon_valid_res (fse.index : Int) with
    | none => simp [hr] at h
    | some e =>
      simp only [hr, Option.some.injEq] at h
      subst h; rfl

/-- The callback `liteon_tof_get_fmt` changes nothing. -/
theorem get_fmt_frame (s : DevState) (format : v4l2_subdev_format)
    (r : Int × DevState × v4l2_subdev_format)
    (h : liteon_tof_get_fmt s format = some r) : r.2.1 = s := by
  unfold liteon_tof_get_fmt at h
  simp only at h
  split_ifs at h
  · simp only [Option.some.injEq] at h
    subst h; rfl
  · cases hr : table_read s.g.liteon_valid_res (to_int s.cam.cap_parm.capturemode) with
    | none => simp [hr] at h
    | some e =>
      simp only [hr, Option.some.injEq] at h
      subst h; rfl

/-- The callback `liteon_tof_set_fmt` changes the capture mode only. -/
theorem set_fmt_frame (s : DevState) (format : v4l2_subdev_format) (r : Int × DevState)
    (h : liteon_tof_set_fmt s format = some r) : same_but_capturemode s r.2 := by
  unfold liteon_tof_set_fmt at h
  split_ifs at h
  · simp only [Option.some.injEq] at h
    subst h; exact same_but_capturemode_refl s
  · cases hr : find_resulution s.g (to_int format.format.width)
        (to_int format.format.height) with
    | none => simp [hr] at h
    | some res =>
      simp only [hr] at h
      split_ifs at h
      · simp only [Option.some.injEq] at h
        subst h; exact ⟨rfl, rfl, rfl, rfl, rfl, rfl⟩
      · simp only [Option.some.injEq] at h
        subst h; exact same_but_capturemode_refl s

/-- One operation changes the capture mode only. -/
theorem step_frame {s : DevState} {op : Op} {r : Int × DevState}
    (h : op.step s = some r) : same_but_capturemode s r.2 := by
  cases op with
  | s_power power_on =>
    simp only [Op.step, liteon_tof_s_power, Option.some.injEq] at h
    subst h; exact same_but_capturemode_refl s
  | enum_mbus_code code =>
    simp only [Op.step, Option.some.injEq] at h
    subst h
    rw [enum_mbus_code_frame]
    exact same_but_capturemode_refl s
  | enum_frame_size fse =>
    simp only [Op.step] at h
    cases hr : liteon_tof_enum_framesizes s fse with
    | none => simp [hr] at h
    | some x =>
      simp only [hr, Option.map_some', Option.some.injEq] at h
      subst h
      rw [enum_framesizes_frame s fse x hr]
      exact same_but_capturemode_refl s
  | get_fmt format =>
    simp only [Op.step] at h
    cases hr : liteon_tof_get_fmt s format with
    | none => simp [hr] at h
    | some x =>
      simp only [hr, Option.map_some', Option.some.injEq] at h
      subst h
      rw [get_fmt_frame s format x hr]
      exact same_but_capturemode_refl s
  | set_fmt format => exact set_fmt_frame s format r h
  | g_parm sparm =>
    simp only [Op.step, Option.some.injEq] at h
    subst h
    rw [g_parm_frame]
    exact same_but_capturemode_refl s
  | s_parm sparm =>
    simp only [Op.step, Option.some.injEq] at h
    subst h
    exact s_parm_frame s sparm

/-- A sequence of operations changes the capture mode only. -/
theorem run_frame {ops : List Op} {s s' : DevState} (h : run s ops = some s') :
    same_but_capturemode s s' := by
  induction ops generalizing s with
  | nil =>
    simp only [run, Option.some.injEq] at h
    subst h; exact same_but_capturemode_refl s
  | cons op ops ih =>
    simp only [run] at h
    cases hstep : op.step s with
    | none => simp [hstep] at h
    | some r =>
      simp only [hstep] at h
      exact same_but_capturemode_trans (step_frame hstep) (ih h)

/-- The power state is a matter of the lines, the clock and the framework
calls: a change of the capture mode keeps it. -/
theorem power_active_of_same {s s' : DevState} (h : same_but_capturemode s s')
    (ha : power_active s) : power_active s' := by
  obtain ⟨_, h2, h3, h4, h5, _⟩ := h
  unfold power_active at ha ⊢
  rw [h2, h3, h4, h5]
  exact ha


/-- The function `liteon_tof_remove` ends with a valid power-down line driven
as output with level 0. -/
theorem remove_line (s : DevState) (hv : gpio_is_valid s.cam.pwn_gpio = true) :
    line_state (liteon_tof_remove s).2.hw s.cam.pwn_gpio = LineState.output 0 := by
  unfold liteon_tof_remove liteon_tof_disable_power line_state
  simp [hv, HwCall.line_effect]

/-- The function `liteon_tof_remove` enables no clock and disables the clock
of the device once. -/
theorem remove_counts (s : DevState) (clk : Nat) (hclk : s.cam.clk = some clk) :
    clk_enables (liteon_tof_remove s).2.hw clk = clk_enables s.hw clk ∧
    clk_disables (liteon_tof_remove s).2.hw clk = clk_disables s.hw clk + 1 := by
  unfold liteon_tof_remove liteon_tof_disable_power clk_enables clk_disables
  rw [hclk]
  constructor
  · split_ifs <;> simp [List.count_cons]
  · split_ifs <;> simp [List.count_cons]

/-! ## Claims on the lifecycle -/

/-- Claim C13: on the model of the lines and the clock (`line_state`,
`clk_enables`, `clk_disables`), with a GPIO provider that hands a line to one
owner, the device is Active when `liteon_tof_probe` has returned 0 and stays so
through any sequence of the public operations: a present power-enable line is
an input, a present reset line is driven as output with level 0, a present
clock is enabled; `liteon_tof_remove` returns 0 and leaves the device
Unpowered: a present power-enable line is driven as output with level 0 and
the clock is disabled; the clock was enabled once in the probe and is disabled
once in the removal. -/
theorem C13_lifecycle_power_states (env : ProbeEnv) (g : Globals) (s0 s : DevState)
    (ops : List Op) (hx : env.gpio_exclusive)
    (hp : probed env g = some s0) (hr : run s0 ops = some s) :
    power_active s0 ∧ power_active s ∧
    (liteon_tof_remove s).1 = 0 ∧ power_unpowered (liteon_tof_remove s).2 ∧
    ∀ clk, s0.cam.clk = some clk →
      clk_enables s0.hw clk = 1 ∧ clk_disables s0.hw clk = 0 ∧
      clk_enables (liteon_tof_remove s).2.hw clk = 1 ∧
      clk_disables (liteon_tof_remove s).2.hw clk = 1 := by
  obtain ⟨hact, hcount⟩ := probed_active hx hp
  obtain ⟨_, hhw, hclk, _, _, _⟩ := run_frame hr
  have hcount' : ∀ clk, s0.cam.clk = some clk →
      clk_enables (liteon_tof_remove s).2.hw clk = 1 ∧
      clk_disables (liteon_tof_remove s).2.hw clk = 1 := by
    intro clk h
    obtain ⟨h1, h2⟩ := remove_counts s clk (hclk.trans h)
    rw [h1, h2, hhw, (hcount clk h).1, (hcount clk h).2]
    exact ⟨rfl, rfl⟩
  refine ⟨hact, power_active_of_same (run_frame hr) hact, rfl, ⟨?_, ?_⟩,
    fun clk h => ⟨(hcount clk h).1, (hcount clk h).2, (hcount' clk h).1, (hcount' clk h).2⟩⟩
  · intro hv
    exact remove_line s hv
  · intro clk h
    have h0 : s0.cam.clk = some clk := hclk.symm.trans h
    rw [(hcount' clk h0).1, (hcount' clk h0).2]

/-- Witness of claim C13: the board `env_full` with power-down line 4, reset
line 5 and clock 7. -/
theorem C13_lifecycle_power_states_witness :
    probed env_full Globals.initial = some dev_full ∧
    power_active dev_full ∧ power_active dev_full ∧
    (liteon_tof_remove dev_full).1 = 0 ∧ power_unpowered (liteon_tof_remove dev_full).2 ∧
    ∀ clk, dev_full.cam.clk = some clk →
      clk_enables dev_full.hw clk = 1 ∧ clk_disables dev_full.hw clk = 0 ∧
      clk_enables (liteon_tof_remove dev_full).2.hw clk = 1 ∧
      clk_disables (liteon_tof_remove dev_full).2.hw clk = 1 :=
  ⟨rfl, C13_lifecycle_power_states env_full Globals.initial dev_full dev_full []
    (fun _ h => absurd h (by decide)) rfl rfl⟩

/-- Claim C14: in every device state and for every argument, each of
`liteon_tof_s_power`, `liteon_tof_enum_mbus_code`, `liteon_tof_enum_framesizes`,
`liteon_tof_get_fmt`, `liteon_tof_set_fmt`, `liteon_tof_g_parm`,
`liteon_tof_s_parm` and `liteon_tof_link_setup` leaves everything but the
capture mode as it was, so the state of every line, the enables and disables
of every clock, the capability, the selected table and `liteon_res_max` are
unchanged; `liteon_tof_s_power` and `liteon_tof_link_setup` return 0 and
change nothing at all. -/
theorem C14_negotiation_frame (s : DevState) :
    (∀ power_on, liteon_tof_s_power s power_on = (0, s)) ∧
    (∀ flags, liteon_tof_link_setup s flags = (0, s)) ∧
    (∀ code, same_but_capturemode s (liteon_tof_enum_mbus_code s code).2.1) ∧
    (∀ fse r, liteon_tof_enum_framesizes s fse = some r → same_but_capturemode s r.2.1) ∧
    (∀ format r, liteon_tof_get_fmt s format = some r → same_but_capturemode s r.2.1) ∧
    (∀ format r, liteon_tof_set_fmt s format = some r → same_but_capturemode s r.2) ∧
    (∀ sparm, same_but_capturemode s (liteon_tof_g_parm s sparm).2.1) ∧
    (∀ sparm, same_but_capturemode s (liteon_tof_s_parm s sparm).2) ∧
    (∀ s', same_but_capturemode s s' →
      (∀ gpio, line_state s'.hw gpio = line_state s.hw gpio) ∧
      (∀ clk, clk_enables s'.hw clk = clk_enables s.hw clk ∧
        clk_disables s'.hw clk = clk_disables s.hw clk) ∧
      s'.cam.cap_parm.capability = s.cam.cap_parm.capability ∧
      s'.g.liteon_valid_res = s.g.liteon_valid_res ∧
      s'.g.liteon_res_max = s.g.liteon_res_max) := by
  refine ⟨fun _ => rfl, fun _ => rfl, fun code => ?_, fun fse r h => ?_, fun format r h => ?_,
    fun format r h => set_fmt_frame s format r h, fun sparm => ?_,
    fun sparm => s_parm_frame s sparm, fun s' h => ?_⟩
  · rw [enum_mbus_code_frame]; exact same_but_capturemode_refl s
  · rw [enum_framesizes_frame s fse r h]; exact same_but_capturemode_refl s
  · rw [get_fmt_frame s format r h]; exact same_but_capturemode_refl s
  · rw [g_parm_frame]; exact same_but_capturemode_refl s
  · obtain ⟨h1, h2, _, _, _, h6⟩ := h
    refine ⟨fun _ => by rw [h2], fun _ => by rw [h2]; exact ⟨rfl, rfl⟩, ?_, by rw [h1],
      by rw [h1]⟩
    rw [h6]

/-- Witness of claim C14: on the probed device `dev_tof`, a `set_fmt` that is
accepted and an `s_parm` that stores capture mode 3 keep the capability. -/
theorem C14_negotiation_frame_witness :
    same_but_capturemode dev_tof ((0 : Int), dev_tof).2 ∧
    (liteon_tof_s_parm dev_tof
      (streamparm_of V4L2_BUF_TYPE_VIDEO_CAPTURE 3)).2.cam.cap_parm.capability
      = dev_tof.cam.cap_parm.capability :=
  ⟨(C14_negotiation_frame dev_tof).2.2.2.2.2.1 (format_of 224 172) (0, dev_tof) (by decide),
    ((C14_negotiation_frame dev_tof).2.2.2.2.2.2.2.2 _
      ((C14_negotiation_frame dev_tof).2.2.2.2.2.2.2.1
        (streamparm_of V4L2_BUF_TYPE_VIDEO_CAPTURE 3))).2.2.1⟩

/-! ## Claims on the resolution search -/

/-- The search loop returns `-1` when none of the entries it may look at
matches. -/
theorem find_resulution_loop_miss (n : Nat) (width height : Int) :
    ∀ (rest : List liteon_tof_res) (k : Nat), k ≤ n → n - k ≤ rest.length →
      (∀ j, j < n - k → ∀ e, rest[j]? = some e → ¬ (e.width = width ∧ e.height = height)) →
      find_resulution_loop (n : Int) width height rest k = some (-1) := by
  intro rest
  induction rest with
  | nil =>
    intro k hk hlen _
    have : k = n := by simp only [List.length_nil] at hlen; omega
    simp [find_resulution_loop, this]
  | cons e rest ih =>
    intro k hk hlen hmiss
    unfold find_resulution_loop
    by_cases hkn : (k : Int) = (n : Int)
    · rw [if_pos hkn]
    · have hlt : k < n := by omega
      rw [if_neg hkn, if_neg (hmiss 0 (by omega) e (List.getElem?_cons_zero))]
      apply ih (k + 1) (by omega)
      · simp only [List.length_cons] at hlen; omega
      · intro j hj e' he'
        exact hmiss (j + 1) (by omega) e' (by simpa using he')

/-- The search loop returns the distance from the last entry it may look at
back to the first match. -/
theorem find_resulution_loop_hit (n : Nat) (width height : Int) :
    ∀ (rest : List liteon_tof_res) (k i : Nat), i < n - k →
      (∃ e, rest[i]? = some e ∧ e.width = width ∧ e.height = height) →
      (∀ j, j < i → ∀ e, rest[j]? = some e → ¬ (e.width = width ∧ e.height = height)) →
      find_resulution_loop (n : Int) width height rest k
        = some ((n : Int) - 1 - ((k + i : Nat) : Int)) := by
  intro rest
  induction rest with
  | nil =>
    intro k i _ hhit _
    obtain ⟨e, he, _⟩ := hhit
    simp at he
  | cons e rest ih =>
    intro k i hi hhit hfirst
    unfold find_resulution_loop
    have hkn : ¬ ((k : Int) = (n : Int)) := by omega
    rw [if_neg hkn]
    cases i with
    | zero =>
      obtain ⟨e', he', hm⟩ := hhit
      simp only [List.getElem?_cons_zero, Option.some.injEq] at he'
      subst he'
      rw [if_pos hm]
      simp
    | succ i =>
      rw [if_neg (hfirst 0 (by omega) e (List.getElem?_cons_zero))]
      rw [ih (k + 1) i (by omega) (by simpa using hhit)
        (fun j hj e' he' => hfirst (j + 1) (by omega) e' (by simpa using he'))]
      congr 1
      push_cast
      ring

/-- The search loop depends on the entries below `liteon_res_max` only. -/
theorem find_resulution_loop_take (n : Nat) (width height : Int) :
    ∀ (rest rest' : List liteon_tof_res) (k : Nat), k ≤ n →
      rest'.take (n - k) = rest.take (n - k) →
      find_resulution_loop (n : Int) width height rest' k
        = find_resulution_loop (n : Int) width height rest k := by
  intro rest
  induction rest with
  | nil =>
    intro rest' k hk htake
    by_cases hkn : k = n
    · subst hkn
      cases rest' <;> simp [find_resulution_loop]
    · cases rest' with
      | nil => rfl
      | cons e' r' =>
        have hpos : n - k = (n - k - 1) + 1 := by omega
        rw [hpos] at htake
        simp at htake
  | cons e rest ih =>
    intro rest' k hk htake
    by_cases hkn : k = n
    · subst hkn
      cases rest' <;> simp [find_resulution_loop]
    · have hpos : n - k = (n - (k + 1)) + 1 := by omega
      rw [hpos] at htake
      cases rest' with
      | nil => simp at htake
      | cons e' r' =>
        simp only [List.take_succ_cons, List.cons.injEq] at htake
        obtain ⟨he, hrest⟩ := htake
        subst he
        unfold find_resulution_loop
        rw [ih r' (k + 1) (by omega) hrest]

/-- Claim C15: for every table pointer with at least `n = liteon_res_max`
entries and every width and height, when `i` is the smallest position below
`n` whose entry equals them `find_resulution` returns `n - 1 - i`, the
distance from the last searched entry back to the match; when no position
below `n` matches it returns `-1`; and the result is the same for every table
with the same first `n` entries: positions from `n` on are never examined. -/
theorem C15_find_resulution_spec (g : Globals) (table : List liteon_tof_res) (n : Nat)
    (width height : Int)
    (ht : g.liteon_valid_res = some table) (hn : g.liteon_res_max = (n : Int))
    (hlen : n ≤ table.length) :
    (∀ i, i < n →
      (∃ e, table[i]? = some e ∧ e.width = width ∧ e.height = height) →
      (∀ j, j < i → ∀ e, table[j]? = some e → ¬ (e.width = width ∧ e.height = height)) →
      find_resulution g width height = some ((n : Int) - 1 - (i : Int))) ∧
    ((∀ j, j < n → ∀ e, table[j]? = some e → ¬ (e.width = width ∧ e.height = height)) →
      find_resulution g width height = some (-1)) ∧
    (∀ table', table'.take n = table.take n →
      find_resulution { g with liteon_valid_res := some table' } width height
        = find_resulution g width height) := by
  refine ⟨fun i hi hhit hfirst => ?_, fun hmiss => ?_, fun table' htake => ?_⟩
  · unfold find_resulution
    rw [ht, hn, Option.getD_some,
      find_resulution_loop_hit n width height table 0 i (by omega) hhit hfirst]
    simp
  · unfold find_resulution
    rw [ht, hn, Option.getD_some]
    exact find_resulution_loop_miss n width height table 0 (Nat.zero_le n) (by omega) hmiss
  · unfold find_resulution
    rw [ht, hn]
    exact find_resulution_loop_take n width height table table' 0 (Nat.zero_le n) htake

/-- Witness of claim C15: with the six entries of `liteon_tof_valid_res` and
count 6, the size 224x173 at position 1 gives 4. -/
theorem C15_find_resulution_spec_witness :
    find_resulution ⟨some liteon_tof_valid_res, 6⟩ 224 173 = some ((6 : Int) - 1 - 1) ∧
    find_resulution ⟨some liteon_tof_valid_res, 6⟩ 224 100 = some (-1) :=
  ⟨(C15_find_resulution_spec ⟨some liteon_tof_valid_res, 6⟩ liteon_tof_valid_res 6 224 173
      rfl rfl (by decide)).1 1 (by decide) ⟨⟨224, 173⟩, rfl, rfl, rfl⟩
      (by
        intro j hj e he
        interval_cases j
        simp only [liteon_tof_valid_res, List.getElem?_cons_zero, Option.some.injEq] at he
        subst he
        decide),
    (C15_find_resulution_spec ⟨some liteon_tof_valid_res, 6⟩ liteon_tof_valid_res 6 224 100
      rfl rfl (by decide)).2.1
      (by
        intro j hj e he
        have hmem : e ∈ liteon_tof_valid_res := List.getElem?_mem he
        have hall : ∀ e ∈ liteon_tof_valid_res, ¬ (e.width = 224 ∧ e.height = 100) := by
          decide
        exact hall e hmem)⟩

/-- Claim C16, the code at the failing input: after a probe of the
`lton,liteon_tof` variant `liteon_res_max` is 1, index 6, the number of
entries of the selected table, is refused with `-EINVAL`, and no index passes
the comparison with `liteon_res_max` and is read outside the table; in the
same state with `liteon_res_max` set to the number of entries 6, index 6
passes the comparison and is read outside the table. -/
theorem C16_index_six_is_refused :
    probed env_tof Globals.initial = some dev_tof ∧
    dev_tof.g.liteon_valid_res = some liteon_tof_valid_res ∧
    liteon_tof_valid_res.length = 6 ∧ dev_tof.g.liteon_res_max = 1 ∧
    liteon_tof_enum_framesizes dev_tof (fse_of 6) = some (-EINVAL, dev_tof, fse_of 6) ∧
    (¬ ∃ index : Nat, ¬ (index > to_u32 dev_tof.g.liteon_res_max) ∧
      table_read dev_tof.g.liteon_valid_res (index : Int) = none) ∧
    liteon_tof_enum_framesizes { dev_tof with g := ⟨some liteon_tof_valid_res, 6⟩ }
      (fse_of 6) = none := by
  refine ⟨rfl, rfl, rfl, rfl, by decide, ?_, by decide⟩
  rintro ⟨index, hacc, hread⟩
  have hle : index ≤ 1 := by
    have h1 : to_u32 dev_tof.g.liteon_res_max = 1 := by decide
    rw [h1] at hacc
    omega
  interval_cases index
  · exact absurd hread (by decide)
  · exact absurd hread (by decide)

/-- The indices `liteon_tof_enum_framesizes` accepts in a state reached from a
successful probe: `liteon_res_max` is 1 and the selected table has six
entries; indices 0 and 1 are accepted and read inside the table, every larger
index is refused with `-EINVAL`. -/
theorem enum_framesizes_after_probe
    (env : ProbeEnv) (g : Globals) (s0 s : DevState) (ops : List Op)
    (fse : v4l2_subdev_frame_size_enum)
    (hg : GlobalsReachable g) (hp : probed env g = some s0) (hr : run s0 ops = some s) :
    s.g.liteon_res_max = 1 ∧
    ∃ table, s.g.liteon_valid_res = some table ∧ table.length = 6 ∧
      (fse.index ≤ 1 → ∃ e, table[fse.index]? = some e ∧
        liteon_tof_enum_framesizes s fse =
          some (0, s, { fse with
            max_width := to_u32 e.width
            min_width := to_u32 e.width
            max_height := to_u32 e.height
            min_height := to_u32 e.height })) ∧
      (1 < fse.index → liteon_tof_enum_framesizes s fse = some (-EINVAL, s, fse)) := by
  obtain ⟨htab, hmax⟩ := reached_globals hg hp hr
  have hone : to_u32 s.g.liteon_res_max = 1 := by rw [hmax]; decide
  have hex : ∃ table, s.g.liteon_valid_res = some table ∧
      (table = liteon_tof_valid_res ∨ table = liteon_tof_vga_valid_res) := by
    rcases htab with h | h
    · exact ⟨_, h, Or.inl rfl⟩
    · exact ⟨_, h, Or.inr rfl⟩
  obtain ⟨table, ht, hb⟩ := hex
  have hlen : table.length = 6 := (builtin_entries_fit table hb).1
  refine ⟨hmax, table, ht, hlen, fun hle => ?_, fun hgt => ?_⟩
  · have hlt : fse.index < table.length := by omega
    refine ⟨table[fse.index], List.getElem?_eq_getElem hlt, ?_⟩
    have hread : table_read s.g.liteon_valid_res (fse.index : Int) = some table[fse.index] := by
      rw [ht]
      simp only [table_read, Int.toNat_ofNat, Int.natCast_nonneg, if_true]
      exact List.getElem?_eq_getElem hlt
    unfold liteon_tof_enum_framesizes
    rw [hone, if_neg (by omega), hread]
  · unfold liteon_tof_enum_framesizes
    rw [hone, if_pos hgt]

/-- Index 1 on the probed device `dev_tof` is accepted. -/
theorem enum_framesizes_after_probe_index_one :
    dev_tof.g.liteon_res_max = 1 ∧
    ∃ table, dev_tof.g.liteon_valid_res = some table ∧ table.length = 6 ∧
      ((fse_of 1).index ≤ 1 → ∃ e, table[(fse_of 1).index]? = some e ∧
        liteon_tof_enum_framesizes dev_tof (fse_of 1) =
          some (0, dev_tof, { fse_of 1 with
            max_width := to_u32 e.width
            min_width := to_u32 e.width
            max_height := to_u32 e.height
            min_height := to_u32 e.height })) ∧
      (1 < (fse_of 1).index →
        liteon_tof_enum_framesizes dev_tof (fse_of 1) = some (-EINVAL, dev_tof, fse_of 1)) :=
  enum_framesizes_after_probe env_tof Globals.initial dev_tof dev_tof [] (fse_of 1)
    GlobalsReachable.initial rfl rfl

/-- Claim C17, the code at the failing input: after a successful probe of
either variant from the initial process state the selected table has six
entries and `liteon_res_max` is 1, the quotient of the size of one
`struct liteon_tof_res` by itself. -/
theorem C17_res_max_is_one :
    (liteon_tof_probe env_tof Globals.initial).ret = some 0 ∧
    (liteon_tof_probe env_tof Globals.initial).g.liteon_valid_res
      = some liteon_tof_valid_res ∧
    liteon_tof_valid_res.length = 6 ∧
    (liteon_tof_probe env_tof Globals.initial).g.liteon_res_max = 1 ∧
    (liteon_tof_probe env_tof_vga Globals.initial).ret = some 0 ∧
    (liteon_tof_probe env_tof_vga Globals.initial).g.liteon_valid_res
      = some liteon_tof_vga_valid_res ∧
    liteon_tof_vga_valid_res.length = 6 ∧
    (liteon_tof_probe env_tof_vga Globals.initial).g.liteon_res_max = 1 := by
  decide

/-- Claim C18, the code at the failing input: a probe that finds neither
variant returns `-ENODEV` from the initial process state, and returns 0 with
the table of the `lton,liteon_tof` variant selected when it starts from the
process-wide variables an earlier probe of that variant left. -/
theorem C18_stale_catalog_is_reused :
    env_no_variant.dn_tof = false ∧ env_no_variant.dn_tof_vga = false ∧
    (liteon_tof_probe env_no_variant Globals.initial).ret = some (-ENODEV) ∧
    (liteon_tof_probe env_no_variant Globals.initial).g.liteon_valid_res = none ∧
    GlobalsReachable (liteon_tof_probe env_tof Globals.initial).g ∧
    (liteon_tof_probe env_no_variant (liteon_tof_probe env_tof Globals.initial).g).ret
      = some 0 ∧
    (liteon_tof_probe env_no_variant
      (liteon_tof_probe env_tof Globals.initial).g).g.liteon_valid_res
      = some liteon_tof_valid_res :=
  ⟨rfl, rfl, by decide, by decide,
    GlobalsReachable.probe env_tof Globals.initial GlobalsReachable.initial,
    by decide, by decide⟩

/-- Claim C19, the code at the failing input: on a board where the variant
matches, pad initialisation succeeds and `v4l2_async_register_subdev` answers
`-ENOMEM` (-12), `liteon_tof_probe` cleans the media entity up, sets the driver
data and returns 0. -/
theorem C19_register_failure_returns_zero :
    env_register_fails.dn_tof = true ∧ env_register_fails.pads_init = 0 ∧
    env_register_fails.register_subdev = -12 ∧
    (liteon_tof_probe env_register_fails Globals.initial).ret = some 0 ∧
    (liteon_tof_probe env_register_fails Globals.initial).drvdata ≠ none ∧
    (liteon_tof_probe env_register_fails Globals.initial).hw =
      [HwCall.pinctrl_get_select_default, HwCall.media_entity_pads_init,
        HwCall.v4l2_async_register_subdev, HwCall.media_entity_cleanup,
        HwCall.platform_set_drvdata] := by
  decide

end LiteonTof
